import Mathlib

/-!
Shallow embedding of the FTIR annotator's algorithmic core: the peak
detection pipeline of `src/lib/csvParser.js` and the rule matching /
ambiguity detection engine of `src/lib/ruleMatcher.js`.

Modelling conventions:
* JavaScript numbers are modelled as rationals (`ℚ`).
* `parseFloat(x.toFixed(k))` is modelled as rounding to `k` decimal
  places, half away from zero for the nonnegative values that occur here
  (`round3`, `round2`, `round4`).
* The transcendental primitives `Math.log10`, `Math.exp`, `Math.sqrt`
  are not rational functions; they are passed to the embedded code as
  explicit function parameters (`log10Q`, `expQ`, `sqrtQ`), and theorems
  either hold for all choices of these parameters or assume only
  properties the real primitives satisfy (e.g. positivity of `exp`).
* Optional / absent JSON fields are modelled with `Option`; the
  JavaScript `x || d` idiom is modelled by `jsOrQ` / `jsOrStr` (which are
  faithful to JavaScript falsiness: `0` and `""` also select the
  default) or by `Option.getD` for object and array fields, where only
  `undefined` is falsy.
-/

namespace FtirSpec

/-- Model of `parseFloat(x.toFixed(3))`: round to 3 decimal places. -/
def round3 (q : ℚ) : ℚ := ((round (1000 * q) : ℤ) : ℚ) / 1000

/-- Model of `parseFloat(x.toFixed(2))`: round to 2 decimal places. -/
def round2 (q : ℚ) : ℚ := ((round (100 * q) : ℤ) : ℚ) / 100

/-- Model of `parseFloat(x.toFixed(4))`: round to 4 decimal places. -/
def round4 (q : ℚ) : ℚ := ((round (10000 * q) : ℤ) : ℚ) / 10000

/-- JavaScript `x || d` for an optional numeric field: both `undefined`
and `0` are falsy, so a declared value of `0` also selects the default. -/
def jsOrQ (x : Option ℚ) (d : ℚ) : ℚ :=
  match x with
  | none => d
  | some v => if v = 0 then d else v

/-- JavaScript `s || d` for an optional string field: both `undefined`
and the empty string are falsy. -/
def jsOrStr (x : Option String) (d : String) : String :=
  match x with
  | none => d
  | some s => if s = "" then d else s

/-! ## Data model (ruleMatcher.js) -/

/-- A detected peak record as produced by `detectPeaks` and consumed by
the matcher (`position`, `intensity`, `fwhm`, `height`, `prominence`,
`snr`, `index`). -/
structure Peak where
  position : ℚ
  intensity : ℚ
  fwhm : ℚ
  height : ℚ
  prominence : ℚ
  snr : ℚ
  index : ℕ
deriving DecidableEq, Inhabited

/-- A secondary-peak specification of a rule subtype. -/
structure SecondarySpec where
  wavenumber : Option (ℚ × ℚ)
  required : Option Bool
deriving DecidableEq, Inhabited

/-- The primary-peak specification of a rule subtype. -/
structure PrimarySpec where
  wavenumber : Option (ℚ × ℚ)
  shape : Option String
  intensity : Option String
deriving DecidableEq, Inhabited

/-- One subtype record of a vibration mode in the rule database. -/
structure SubTypeRec where
  id : Option String
  source : Option String
  confidence : Option ℚ
  primaryPeak : Option PrimarySpec
  secondaryPeaks : Option (List SecondarySpec)
  notes : Option String
deriving DecidableEq, Inhabited

/-- One vibration-mode record of the rule database. -/
structure ModeRec where
  name : Option String
  subTypes : Option (List SubTypeRec)
deriving DecidableEq, Inhabited

/-- The rule database; `vibrationModes` is a key-ordered association
list modelling the JavaScript object (`Object.entries` iterates in
insertion order). -/
structure RulesDb where
  vibrationModes : Option (List (String × ModeRec))
deriving DecidableEq, Inhabited

/-- The scoring-breakdown subrecord of a candidate. -/
structure Scoring where
  baseConfidence : ℚ
  shapeBonus : ℚ
  intensityBonus : ℚ
  secondaryBonus : ℚ
  wavenumberMatch : Bool
  shapeMatch : Bool
  intensityMatch : Bool
  secondaryMatch : Bool
deriving DecidableEq, Inhabited

/-- A candidate match for one peak. -/
structure Candidate where
  vibrationMode : String
  source : String
  confidence : ℚ
  peakIndex : ℕ
  ruleKey : String
  ruleSubtype : String
  secondaryPeaksFound : ℕ
  notes : String
  scoring : Scoring
deriving DecidableEq, Inhabited

/-! ## ruleMatcher.js functions -/

/-- `wavenumberMatch(peakPosition, ruleRange, tolerance)`: the position
matches when it lies in the rule range widened on both sides by
`tolerance` times the range span. -/
def wavenumberMatch (peakPosition : ℚ) (ruleRange : ℚ × ℚ) (tolerance : ℚ) : Bool :=
  let minWn := ruleRange.1
  let maxWn := ruleRange.2
  let rangeSize := maxWn - minWn
  let tol := rangeSize * tolerance
  decide ((minWn - tol) ≤ peakPosition ∧ peakPosition ≤ (maxWn + tol))

/-- The `shapeSpecs` table of `shapeMatch`: FWHM band per shape class. -/
def shapeSpecs (ruleShape : String) : Option (ℚ × ℚ) :=
  if ruleShape = "sharp" then some (10, 50)
  else if ruleShape = "medium" then some (50, 100)
  else if ruleShape = "broad" then some (100, 300)
  else if ruleShape = "very-broad" then some (300, 1200)
  else if ruleShape = "medium-broad" then some (80, 150)
  else none

/-- `shapeMatch(peakFWHM, ruleShape)`: returns `(match, bonus)`. An
unknown shape class passes with bonus `0`; inside the band passes with
bonus `0.05`; narrower than `0.7 × min` or wider than `1.5 × max` fails
with `-0.2`; otherwise passes with bonus `0`. -/
def shapeMatch (peakFWHM : ℚ) (ruleShape : String) : Bool × ℚ :=
  match shapeSpecs ruleShape with
  | none => (true, 0)
  | some (minFwhm, maxFwhm) =>
    if minFwhm ≤ peakFWHM ∧ peakFWHM ≤ maxFwhm then (true, 5/100)
    else if peakFWHM < minFwhm * (7/10) then (false, -(2/10))
    else if peakFWHM > maxFwhm * (3/2) then (false, -(2/10))
    else (true, 0)

/-- The `thresholds` table of `intensityCheck`. -/
def intensityThresholds (ruleIntensity : String) : Option (ℚ × ℚ) :=
  if ruleIntensity = "strong" then some (1/2, 1)
  else if ruleIntensity = "medium to strong" then some (2/5, 1)
  else if ruleIntensity = "medium" then some (1/5, 7/10)
  else if ruleIntensity = "weak to medium" then some (1/10, 3/5)
  else if ruleIntensity = "weak" then some (1/100, 3/10)
  else if ruleIntensity = "variable" then some (0, 1)
  else none

/-- `intensityCheck(peakIntensity, ruleIntensity, spectrumMaxIntensity)`:
never disqualifies; returns bonus `0.05` when the normalised intensity
lies inside the class band, `0` otherwise. -/
def intensityCheck (peakIntensity : ℚ) (ruleIntensity : String)
    (spectrumMaxIntensity : ℚ) : Bool × ℚ :=
  match intensityThresholds ruleIntensity with
  | none => (true, 0)
  | some (minThresh, maxThresh) =>
    let normIntensity := if 0 < spectrumMaxIntensity then peakIntensity / spectrumMaxIntensity else 0
    if minThresh ≤ normIntensity ∧ normIntensity ≤ maxThresh then (true, 5/100)
    else (true, 0)

/-- One entry of the list returned by `findSecondaryPeaks`. -/
structure SecondaryMatch where
  peakIdx : ℕ
  spec : SecondarySpec
deriving DecidableEq, Inhabited

/-- The inner scan of `findSecondaryPeaks`: index of the first detected
peak whose position matches the spec range at 10% tolerance and lies
within `maxWavenumberGap` of the primary position. -/
def specFirstMatch (primaryPosition : ℚ) (spec : SecondarySpec)
    (peaks : List Peak) (maxWavenumberGap : ℚ) : Option ℕ :=
  (List.range peaks.length).find? (fun peakIdx =>
    wavenumberMatch peaks[peakIdx]!.position (spec.wavenumber.getD (0, 10000)) (1/10)
      && decide (|peaks[peakIdx]!.position - primaryPosition| ≤ maxWavenumberGap))

/-- The spec loop of `findSecondaryPeaks`. `none` models the early
`return []` taken when a required spec finds no matching peak. -/
def findSecondaryPeaksGo (primaryPosition : ℚ) (peaks : List Peak)
    (maxWavenumberGap : ℚ) : List SecondarySpec → Option (List SecondaryMatch)
  | [] => some []
  | spec :: rest =>
    match specFirstMatch primaryPosition spec peaks maxWavenumberGap with
    | some peakIdx =>
      match findSecondaryPeaksGo primaryPosition peaks maxWavenumberGap rest with
      | some ms => some ({ peakIdx := peakIdx, spec := spec } :: ms)
      | none => none
    | none =>
      if spec.required.getD false then none
      else findSecondaryPeaksGo primaryPosition peaks maxWavenumberGap rest

/-- `findSecondaryPeaks(primaryPeakIdx, secondarySpecs, peaks,
maxWavenumberGap = 200)`: one match per satisfied spec, or `[]` as soon
as a required spec is unsatisfied. -/
def findSecondaryPeaks (primaryPeakIdx : ℕ) (secondarySpecs : List SecondarySpec)
    (peaks : List Peak) (maxWavenumberGap : ℚ) : List SecondaryMatch :=
  (findSecondaryPeaksGo peaks[primaryPeakIdx]!.position peaks maxWavenumberGap
    secondarySpecs).getD []

/-- `Math.max(...allPeaks.map(p => p.intensity))`.  The JavaScript value
on an empty list is `-Infinity`; all theorems below only use nonempty
peak lists, where this model agrees with the source. -/
def maxIntensityOf (allPeaks : List Peak) : ℚ :=
  match allPeaks.map (fun p => p.intensity) with
  | [] => 0
  | x :: xs => xs.foldl max x

/-- `subtype.primaryPeak || {}` (all fields of the default are absent). -/
def subtypePrimary (subtype : SubTypeRec) : PrimarySpec :=
  subtype.primaryPeak.getD default

/-- The two disqualifying gates of the per-subtype loop body of
`matchPeakCandidates`: the wavenumber gate (5% tolerance) and the shape
gate. -/
def gatesPass (peak : Peak) (subtype : SubTypeRec) : Bool :=
  wavenumberMatch peak.position ((subtypePrimary subtype).wavenumber.getD (0, 10000)) (5/100)
    && (shapeMatch peak.fwhm (jsOrStr (subtypePrimary subtype).shape "sharp")).1

/-- The first clamped confidence of the loop body:
`clamp(base + shapeBonus + intensityBonus, 0, 1)` with
`base = subtype.confidence || 0.7`. -/
def adjustedConfidence1 (peak : Peak) (maxIntensity : ℚ) (subtype : SubTypeRec) : ℚ :=
  let baseConfidence := jsOrQ subtype.confidence (7/10)
  let shapeBonus := (shapeMatch peak.fwhm (jsOrStr (subtypePrimary subtype).shape "sharp")).2
  let intensityBonus := (intensityCheck peak.intensity
    (jsOrStr (subtypePrimary subtype).intensity "medium") maxIntensity).2
  max 0 (min (baseConfidence + shapeBonus + intensityBonus) 1)

/-- `requiredMissing`: the subtype has at least one required secondary
spec and `findSecondaryPeaks` returned no matches. -/
def requiredMissing (peakIdx : ℕ) (allPeaks : List Peak) (subtype : SubTypeRec) : Bool :=
  let secondaryPeaksL := subtype.secondaryPeaks.getD []
  let secondaryMatches := findSecondaryPeaks peakIdx secondaryPeaksL allPeaks 200
  decide (0 < (secondaryPeaksL.filter (fun spec => spec.required.getD false)).length)
    && decide (secondaryMatches.length = 0)

/-- The final (pre-rounding) confidence of the loop body: halved when a
required secondary spec is missing, otherwise increased by
`0.1 × matches` and re-clamped to `[0, 1]`. -/
def adjustedConfidence2 (peakIdx : ℕ) (peak : Peak) (allPeaks : List Peak)
    (maxIntensity : ℚ) (subtype : SubTypeRec) : ℚ :=
  let a1 := adjustedConfidence1 peak maxIntensity subtype
  let secondaryMatches := findSecondaryPeaks peakIdx (subtype.secondaryPeaks.getD []) allPeaks 200
  let secondaryBonus := (1/10) * (secondaryMatches.length : ℚ)
  if requiredMissing peakIdx allPeaks subtype then a1 * (1/2)
  else max 0 (min (a1 + secondaryBonus) 1)

/-- The loop body of `matchPeakCandidates` for one subtype: `none` when a
gate rejects it, otherwise the built candidate record. -/
def scoreSubtype (peakIdx : ℕ) (peak : Peak) (allPeaks : List Peak)
    (maxIntensity : ℚ) (modeKey modeName : String) (subtype : SubTypeRec) : Option Candidate :=
  if gatesPass peak subtype then
    let shapeBonus := (shapeMatch peak.fwhm (jsOrStr (subtypePrimary subtype).shape "sharp")).2
    let ic := intensityCheck peak.intensity
      (jsOrStr (subtypePrimary subtype).intensity "medium") maxIntensity
    let secondaryPeaksL := subtype.secondaryPeaks.getD []
    let secondaryMatches := findSecondaryPeaks peakIdx secondaryPeaksL allPeaks 200
    some
      { vibrationMode := modeName
        source := jsOrStr subtype.source "unknown"
        confidence := round3 (adjustedConfidence2 peakIdx peak allPeaks maxIntensity subtype)
        peakIndex := peakIdx
        ruleKey := modeKey
        ruleSubtype := jsOrStr subtype.id "?"
        secondaryPeaksFound := secondaryMatches.length
        notes := jsOrStr subtype.notes ""
        scoring :=
          { baseConfidence := round3 (jsOrQ subtype.confidence (7/10))
            shapeBonus := round3 shapeBonus
            intensityBonus := round3 ic.2
            secondaryBonus := round3 ((1/10) * (secondaryMatches.length : ℚ))
            wavenumberMatch := true
            shapeMatch := (shapeMatch peak.fwhm (jsOrStr (subtypePrimary subtype).shape "sharp")).1
            intensityMatch := ic.1
            secondaryMatch := decide (0 < secondaryMatches.length) || decide (secondaryPeaksL.length = 0) } }
  else none

/-- The candidate collection loop of `matchPeakCandidates`, in database
iteration order. -/
def collectCandidates (peakIdx : ℕ) (peak : Peak) (rulesDb : RulesDb)
    (allPeaks : List Peak) : List Candidate :=
  (rulesDb.vibrationModes.getD []).flatMap (fun entry =>
    let modeKey := entry.1
    let mode := entry.2
    let modeName := jsOrStr mode.name modeKey
    (mode.subTypes.getD []).filterMap
      (scoreSubtype peakIdx peak allPeaks (maxIntensityOf allPeaks) modeKey modeName))

/-- The comparison used by `candidates.sort((a, b) => b.confidence -
a.confidence)`: `a` may precede `b` iff `b.confidence ≤ a.confidence`.
`Array.prototype.sort` is stable, as is `List.mergeSort`, and a stable
sort with respect to a total preorder is unique, so `mergeSort` models
the source sort exactly. -/
def candidateLE (a b : Candidate) : Bool := decide (b.confidence ≤ a.confidence)

/-- The collected candidates sorted by confidence, highest first. -/
def sortedCandidates (peakIdx : ℕ) (peak : Peak) (rulesDb : RulesDb)
    (allPeaks : List Peak) : List Candidate :=
  (collectCandidates peakIdx peak rulesDb allPeaks).mergeSort candidateLE

/-- `matchPeakCandidates(peakIdx, peak, rulesDb, allPeaks)`: top 5
candidates by descending confidence. -/
def matchPeakCandidates (peakIdx : ℕ) (peak : Peak) (rulesDb : RulesDb)
    (allPeaks : List Peak) : List Candidate :=
  (sortedCandidates peakIdx peak rulesDb allPeaks).take 5

/-! ## csvParser.js: preprocessing and peak detection -/

/-- `transmittanceToAbsorbance(transmittance)`:
`A = log10(100 / clip(T, 0.1, 100))`, with `Math.log10` passed in as
`log10Q`. -/
def transmittanceToAbsorbance (log10Q : ℚ → ℚ) (transmittance : List ℚ) : List ℚ :=
  transmittance.map (fun t =>
    let tClipped := max (1/10) (min t 100)
    log10Q (100 / tClipped))

/-- `gaussianWeights(size)`: normalised Gaussian weights with
`sigma = size / 4` centred at `size / 2`, with `Math.exp` passed in as
`expQ`. -/
def gaussianWeights (expQ : ℚ → ℚ) (size : ℕ) : List ℚ :=
  let sigma : ℚ := (size : ℚ) / 4
  let center : ℚ := (size : ℚ) / 2
  let weights := (List.range size).map (fun (i : ℕ) =>
    let x := (i : ℚ) - center
    expQ (-(x * x) / (2 * sigma * sigma)))
  let sum := weights.foldl (· + ·) 0
  weights.map (fun w => w / sum)

/-- `fitPolynomial(data, degree)`.  Despite its name the source performs
a Gaussian-weighted moving average with `degree + 1` weights, truncated
at the window edges (the least-squares system matrix it builds is never
used).  Out-of-range neighbour indices are skipped, and an index whose
weight sum is not positive keeps its input value. -/
def fitPolynomial (expQ : ℚ → ℚ) (data : List ℚ) (degree : ℕ) : List ℚ :=
  let weights := gaussianWeights expQ (degree + 1)
  (List.range data.length).map (fun (idx : ℕ) =>
    let s := (List.range weights.length).foldl (fun (acc : ℚ × ℚ) (i : ℕ) =>
      let dataIdx : ℤ := (idx : ℤ) - (weights.length / 2 : ℕ) + (i : ℤ)
      if 0 ≤ dataIdx ∧ dataIdx < (data.length : ℤ) then
        (acc.1 + data[dataIdx.toNat]! * weights[i]!, acc.2 + weights[i]!)
      else acc) (0, 0)
    if 0 < s.2 then s.1 / s.2 else data[idx]!)

/-- The window-length adjustment at the top of `savitzkyGolayFilter`:
forced odd and at least `polyorder + 1`. -/
def sgWindowLength (windowLength polyorder : ℕ) : ℕ :=
  let w1 := if windowLength % 2 = 0 then windowLength + 1 else windowLength
  let w2 := if w1 < polyorder + 1 then polyorder + 1 else w1
  if w2 % 2 = 0 then w2 + 1 else w2

/-- `savitzkyGolayFilter(data, windowLength, polyorder)`: window length
forced odd and at least `polyorder + 1`; input returned unchanged when
shorter than the window; otherwise each index takes the centre value of
`fitPolynomial` applied to its edge-truncated window. -/
def savitzkyGolayFilter (expQ : ℚ → ℚ) (data : List ℚ)
    (windowLength polyorder : ℕ) : List ℚ :=
  let w3 := sgWindowLength windowLength polyorder
  if data.length < w3 then data
  else
    let half := w3 / 2
    (List.range data.length).map (fun i =>
      let start := i - half
      let stop := min data.length (i + half + 1)
      let window := (data.drop start).take (stop - start)
      let fitted := fitPolynomial expQ window polyorder
      fitted[window.length / 2]!)

/-- `removeLinearBaseline(data)`: subtract the straight line through the
first and last samples and clamp negatives to zero; inputs with fewer
than 2 samples are returned unchanged. -/
def removeLinearBaseline (data : List ℚ) : List ℚ :=
  let n := data.length
  if n < 2 then data
  else
    let start := data[0]!
    let stop := data[n - 1]!
    (List.range n).map (fun (i : ℕ) =>
      max 0 (data[i]! - (start + (stop - start) * ((i : ℚ) / ((n : ℚ) - 1)))))

/-- `Math.max(...data)` (`0` stands in for the empty case, which yields
`-Infinity` in JavaScript and never occurs in the proofs below). -/
def maxQ (data : List ℚ) : ℚ :=
  match data with
  | [] => 0
  | x :: xs => xs.foldl max x

/-- `minLeft` of the prominence check of `findPeaks`: minimum of
`data[i]` and the up-to-50 samples `data[max(0, i-50) .. i-1]`. -/
def minLeftOf (data : List ℚ) (i : ℕ) : ℚ :=
  ((List.range' (i - 50) (min i 50)).map (fun j => data[j]!)).foldl min data[i]!

/-- `minRight` of the prominence check of `findPeaks`: minimum of
`data[i]` and the samples `data[i+1 .. min(data.length, i+50) - 1]`
(at most 49 samples to the right). -/
def minRightOf (data : List ℚ) (i : ℕ) : ℚ :=
  ((List.range' (i + 1) (min data.length (i + 50) - (i + 1))).map
    (fun j => data[j]!)).foldl min data[i]!

/-- The candidate test of the first loop of `findPeaks`: strict local
maximum, minimum height, and prominence at least the threshold. -/
def promKeep (data : List ℚ) (height prominence : ℚ) (i : ℕ) : Bool :=
  decide (data[i - 1]! < data[i]!) && decide (data[i + 1]! < data[i]!)
    && decide (height ≤ data[i]!)
    && decide (prominence ≤ min (data[i]! - minLeftOf data i) (data[i]! - minRightOf data i))

/-- The first loop of `findPeaks`: indices `1 .. data.length - 2` that
pass the local-maximum, height and prominence tests, in ascending
order. -/
def promCandidates (data : List ℚ) (height prominence : ℚ) : List ℕ :=
  (List.range' 1 (data.length - 2)).filter (promKeep data height prominence)

/-- The greedy distance filter of `findPeaks`: scan candidates in order,
keeping one only when it is at least `distance` away from every
already-kept candidate. -/
def distanceFilter (distance : ℕ) (peaks : List ℕ) : List ℕ :=
  peaks.foldl (fun (filtered : List ℕ) (p : ℕ) =>
    if filtered.all (fun (q : ℕ) => decide ((distance : ℤ) ≤ |(p : ℤ) - (q : ℤ)|)) then
      filtered ++ [p]
    else filtered) []

/-- The left half-height edge scan of `findPeaks`: the first index below
`peakIdx` whose value drops below `halfHeight`, else `peakIdx`. -/
def leftEdgeOf (data : List ℚ) (peakIdx : ℕ) (halfHeight : ℚ) : ℕ :=
  match (List.range peakIdx).reverse.find? (fun i => decide (data[i]! < halfHeight)) with
  | some i => i
  | none => peakIdx

/-- The right half-height edge scan of `findPeaks`. -/
def rightEdgeOf (data : List ℚ) (peakIdx : ℕ) (halfHeight : ℚ) : ℕ :=
  match (List.range' (peakIdx + 1) (data.length - (peakIdx + 1))).find?
      (fun i => decide (data[i]! < halfHeight)) with
  | some i => i
  | none => peakIdx

/-- The record returned by `findPeaks`. -/
structure FindPeaksResult where
  peaks : List ℕ
  peak_heights : List ℚ
  width : List ℕ
  prominences : List ℚ
deriving DecidableEq, Inhabited

/-- `findPeaks(data, height, prominence = null, distance = null)`. -/
def findPeaks (data : List ℚ) (height : ℚ) (prominenceOpt : Option ℚ)
    (distanceOpt : Option ℕ) : FindPeaksResult :=
  let prominence := match prominenceOpt with
    | some p => p
    | none => maxQ data * (5/100)
  let distance := match distanceOpt with
    | some d => d
    | none => if data.length / 200 = 0 then 1 else data.length / 200
  let filtered := distanceFilter distance (promCandidates data height prominence)
  { peaks := filtered
    peak_heights := filtered.map (fun i => data[i]!)
    width := filtered.map (fun peakIdx =>
      rightEdgeOf data peakIdx (data[peakIdx]! / 2) - leftEdgeOf data peakIdx (data[peakIdx]! / 2))
    prominences := filtered.map (fun _ => prominence) }

/-- `calculateFWHMWavenumber(peakIndices, widthsInPoints, wavenumber)`:
widths in sample units times the average absolute spacing of the
wavenumber axis (`peakIndices` is unused in the source body too). -/
def calculateFWHMWavenumber (peakIndices : List ℕ) (widthsInPoints : List ℕ)
    (wavenumber : List ℚ) : List ℚ :=
  let spacing := (List.range (wavenumber.length - 1)).map
    (fun (i : ℕ) => |wavenumber[i + 1]! - wavenumber[i]!|)
  let avgSpacing := spacing.foldl (· + ·) 0 / (spacing.length : ℚ)
  let _ := peakIndices
  widthsInPoints.map (fun (w : ℕ) => (w : ℚ) * avgSpacing)

/-- `calculateSNR(peakHeights, data)`: noise estimated from the lowest
10% of samples; `Math.sqrt` passed in as `sqrtQ`; a zero standard
deviation is replaced by 1 as divisor. -/
def calculateSNR (sqrtQ : ℚ → ℚ) (peakHeights : List ℚ) (data : List ℚ) : List ℚ :=
  let sorted := data.mergeSort (fun a b => decide (a ≤ b))
  let lowIntensityRegion := sorted.take (sorted.length / 10)
  let noiseEstimate := lowIntensityRegion.foldl (· + ·) 0 / (lowIntensityRegion.length : ℚ)
  let noiseStd := sqrtQ ((lowIntensityRegion.foldl (fun sum v => sum + (v - noiseEstimate) ^ 2) 0)
    / (lowIntensityRegion.length : ℚ))
  peakHeights.map (fun h => h / (if noiseStd = 0 then 1 else noiseStd))

/-- The options record of `detectPeaks` with its destructured defaults. -/
structure DetectOptions where
  smoothWindowLength : ℕ
  smoothPolyorder : ℕ
  baselineMethod : String
  minHeight : ℚ
  prominencePercent : ℚ
  distancePercent : ℚ
deriving DecidableEq, Inhabited

/-- The default options of `detectPeaks`. -/
def defaultDetectOptions : DetectOptions :=
  { smoothWindowLength := 11
    smoothPolyorder := 3
    baselineMethod := "linear"
    minHeight := 5/1000
    prominencePercent := 5
    distancePercent := 2 }

/-- The axis-orientation test of `detectPeaks`:
`wavenumber[0] > wavenumber[wavenumber.length - 1]`. -/
def detectRev (wavenumber : List ℚ) : Bool :=
  decide (wavenumber[wavenumber.length - 1]! < wavenumber[0]!)

/-- The `wn` local of `detectPeaks`: the axis, reversed to ascending
order if it was descending. -/
def detectAxis (wavenumber : List ℚ) : List ℚ :=
  if detectRev wavenumber then wavenumber.reverse else wavenumber

/-- The `absorbance` local of `detectPeaks` after conversion, smoothing
and baseline removal. -/
def detectAbsorbance (log10Q expQ : ℚ → ℚ) (wavenumber transmittance : List ℚ)
    (opts : DetectOptions) : List ℚ :=
  let tm := if detectRev wavenumber then transmittance.reverse else transmittance
  let absorbance0 := transmittanceToAbsorbance log10Q tm
  let absorbance1 := savitzkyGolayFilter expQ absorbance0 opts.smoothWindowLength
    opts.smoothPolyorder
  if opts.baselineMethod = "linear" then removeLinearBaseline absorbance1 else absorbance1

/-- The `result` local of `detectPeaks`: `findPeaks` applied with the
auto-derived height, prominence and distance parameters. -/
def detectResult (log10Q expQ : ℚ → ℚ) (wavenumber transmittance : List ℚ)
    (opts : DetectOptions) : FindPeaksResult :=
  let absorbance := detectAbsorbance log10Q expQ wavenumber transmittance opts
  let maxAbs := maxQ absorbance
  let height := max opts.minHeight (maxAbs * (1/100))
  let prominence := maxAbs * (opts.prominencePercent / 100)
  let distance := max 1 (⌊((detectAxis wavenumber).length : ℚ) * (opts.distancePercent / 100)⌋.toNat)
  findPeaks absorbance height (some prominence) (some distance)

/-- The `peakList` local of `detectPeaks`, before the final sort. -/
def detectPeakList (log10Q expQ sqrtQ : ℚ → ℚ) (wavenumber transmittance : List ℚ)
    (opts : DetectOptions) : List Peak :=
  let wn := detectAxis wavenumber
  let absorbance := detectAbsorbance log10Q expQ wavenumber transmittance opts
  let result := detectResult log10Q expQ wavenumber transmittance opts
  let fwhmWavenumber := calculateFWHMWavenumber result.peaks result.width wn
  let snr := calculateSNR sqrtQ result.peak_heights absorbance
  (List.range result.peaks.length).map (fun (i : ℕ) =>
    let peakIdx := result.peaks[i]!
    { position := round2 wn[peakIdx]!
      intensity := round4 absorbance[peakIdx]!
      fwhm := round2 fwhmWavenumber[i]!
      height := round4 result.peak_heights[i]!
      prominence := round4 result.prominences[i]!
      snr := round2 snr[i]!
      index := peakIdx : Peak })

/-- `detectPeaks(wavenumber, transmittance, options)`: normalise axis
order, convert to absorbance, smooth, remove baseline, derive
height/prominence/distance, find peaks, compute FWHM and SNR, build
`Peak` records and sort them by descending position. -/
def detectPeaks (log10Q expQ sqrtQ : ℚ → ℚ) (wavenumber transmittance : List ℚ)
    (opts : DetectOptions) : List Peak :=
  (detectPeakList log10Q expQ sqrtQ wavenumber transmittance opts).mergeSort
    (fun a b => decide (b.position ≤ a.position))

/-- An annotation record as produced by `matchAllPeaks` and consumed by
`detectAmbiguities`. -/
structure Annot where
  peakIndex : ℕ
  peakPosition : ℚ
  peakIntensity : ℚ
  peakFwhm : ℚ
  peakSNR : ℚ
  primaryMatch : Candidate
  topFiveCandidates : List Candidate
  numCandidates : ℕ
  confidenceRange : List ℚ
  isAmbiguous : Bool
deriving DecidableEq, Inhabited

/-- An ambiguity record as produced by `detectAmbiguities`. -/
structure Ambiguity where
  peakIndex : ℕ
  peakPosition : ℚ
  peakIntensity : ℚ
  peakFwhm : ℚ
  topConfidence : ℚ
  secondConfidence : ℚ
  confidenceGap : ℚ
  topCandidates : List Candidate
  allCandidates : List Candidate
  note : String
deriving DecidableEq, Inhabited

/-- The loop body of `detectAmbiguities` for one annotation. -/
def mkAmbiguity (confidenceGapThreshold : ℚ) (annot : Annot) : Option Ambiguity :=
  let candidates := annot.topFiveCandidates
  if 2 ≤ candidates.length then
    let conf1 := candidates[0]!.confidence
    let conf2 := candidates[1]!.confidence
    let gap := conf1 - conf2
    if gap ≤ confidenceGapThreshold then
      some
        { peakIndex := annot.peakIndex
          peakPosition := annot.peakPosition
          peakIntensity := annot.peakIntensity
          peakFwhm := annot.peakFwhm
          topConfidence := round3 conf1
          secondConfidence := round3 conf2
          confidenceGap := round3 gap
          topCandidates := candidates.take 2
          allCandidates := candidates
          note := "Multiple plausible explanations - expert review recommended" }
    else none
  else none

/-- `detectAmbiguities(annotations, confidenceGapThreshold = 0.05)`. -/
def detectAmbiguities (annots : List Annot) (confidenceGapThreshold : ℚ) : List Ambiguity :=
  annots.filterMap (mkAmbiguity confidenceGapThreshold)

/-! ## General helper lemmas -/

theorem foldl_add_eq_sum (l : List ℚ) (x : ℚ) : l.foldl (· + ·) x = x + l.sum := by
  induction l generalizing x with
  | nil => simp
  | cons a l ih => simp [ih, add_assoc]

theorem round_mono {x y : ℚ} (h : x ≤ y) : round x ≤ round y := by
  rw [round_eq, round_eq]
  exact Int.floor_le_floor (by linarith)

theorem round3_nonneg {q : ℚ} (h : 0 ≤ q) : 0 ≤ round3 q := by
  unfold round3
  have h1 : (0 : ℤ) ≤ round (1000 * q) := by
    have h2 := round_mono (by linarith : (0 : ℚ) ≤ 1000 * q)
    rwa [round_zero] at h2
  positivity

theorem round3_le_one {q : ℚ} (h : q ≤ 1) : round3 q ≤ 1 := by
  unfold round3
  have h1 : round (1000 * q) ≤ round (1000 : ℚ) := round_mono (by linarith)
  have h2 : round (1000 : ℚ) = 1000 := by
    exact_mod_cast round_intCast (α := ℚ) 1000
  rw [h2] at h1
  rw [div_le_one (by norm_num)]
  exact_mod_cast h1

theorem round3_int_div (m : ℤ) : round3 ((m : ℚ) / 1000) = (m : ℚ) / 1000 := by
  unfold round3
  have h : (1000 : ℚ) * ((m : ℚ) / 1000) = (m : ℚ) := by ring
  rw [h, round_intCast]

theorem foldl_min_le_seed (l : List ℚ) (seed : ℚ) : l.foldl min seed ≤ seed := by
  induction l generalizing seed with
  | nil => simp
  | cons a l ih => exact le_trans (ih (min seed a)) (min_le_left _ _)

theorem foldl_min_le_mem (l : List ℚ) (seed : ℚ) {y : ℚ} (hy : y ∈ l) :
    l.foldl min seed ≤ y := by
  induction l generalizing seed with
  | nil => simp at hy
  | cons a l ih =>
    rcases List.mem_cons.mp hy with h | h
    · subst h
      exact le_trans (foldl_min_le_seed l (min seed y)) (min_le_right _ _)
    · exact ih (min seed a) h

theorem foldl_min_attained (l : List ℚ) (seed : ℚ) :
    l.foldl min seed = seed ∨ l.foldl min seed ∈ l := by
  induction l generalizing seed with
  | nil => simp
  | cons a l ih =>
    rcases ih (min seed a) with h | h
    · rcases min_cases seed a with ⟨h1, _⟩ | ⟨h1, _⟩
      · left
        rw [List.foldl_cons, h, h1]
      · right
        rw [List.foldl_cons, h, h1]
        exact List.mem_cons_self a l
    · right
      exact List.mem_cons_of_mem a h

theorem distanceFilter_sub (distance : ℕ) (peaks : List ℕ) :
    ∀ x ∈ distanceFilter distance peaks, x ∈ peaks := by
  unfold distanceFilter
  suffices h : ∀ (acc : List ℕ), ∀ x ∈ peaks.foldl (fun (filtered : List ℕ) (p : ℕ) =>
      if filtered.all (fun (q : ℕ) => decide ((distance : ℤ) ≤ |(p : ℤ) - (q : ℤ)|)) then
        filtered ++ [p]
      else filtered) acc, x ∈ acc ∨ x ∈ peaks by
    intro x hx
    rcases h [] x hx with h' | h'
    · simp at h'
    · exact h'
  intro acc
  induction peaks generalizing acc with
  | nil => simp
  | cons a l ih =>
    intro x hx
    simp only [List.foldl_cons] at hx
    by_cases hc : (acc.all fun (q : ℕ) => decide ((distance : ℤ) ≤ |(a : ℤ) - (q : ℤ)|))
    · rw [if_pos hc] at hx
      rcases ih (acc ++ [a]) x hx with h' | h'
      · rcases List.mem_append.mp h' with h'' | h''
        · exact Or.inl h''
        · simp at h''
          simp [h'']
      · simp [h']
    · rw [if_neg hc] at hx
      rcases ih acc x hx with h' | h'
      · exact Or.inl h'
      · simp [h']

/-! ## Claim C10 -/

/-- Claim C10: a subtype whose declared base confidence is exactly `0` is
scored with the unspecified-field default `0.7`, not `0`: the candidate
produced by the per-subtype loop body of `matchPeakCandidates` for a
subtype with declared confidence `0` is identical (for every peak, peak
list and mode) to the one produced for the same subtype with no declared
confidence, and the JavaScript default expression `subtype.confidence ||
0.7` indeed maps a declared `0` to `0.7`. -/
theorem claimC10 (peakIdx : ℕ) (peak : Peak) (allPeaks : List Peak)
    (maxIntensity : ℚ) (modeKey modeName : String) (st : SubTypeRec) :
    scoreSubtype peakIdx peak allPeaks maxIntensity modeKey modeName { st with confidence := some 0 }
      = scoreSubtype peakIdx peak allPeaks maxIntensity modeKey modeName { st with confidence := none }
    ∧ jsOrQ (some 0) (7/10) = 7/10 := by
  constructor
  · simp [scoreSubtype, gatesPass, subtypePrimary, adjustedConfidence2, adjustedConfidence1,
      requiredMissing, jsOrQ]
  · simp [jsOrQ]

/-! ## Claim C8 -/

/-- Claim C8: `removeLinearBaseline` maps every signal of length ≥ 2
whose samples lie exactly on a straight line (in index) to the all-zero
signal, and returns signals with fewer than 2 samples unchanged.  (A
signal on the line through its first and last samples is exactly a
signal of the form `i ↦ a + d·i`.) -/
theorem claimC8 (data : List ℚ) (a d : ℚ) (h2 : 2 ≤ data.length)
    (hlin : ∀ i : ℕ, i < data.length → data[i]! = a + d * i) :
    removeLinearBaseline data = List.replicate data.length 0
    ∧ ∀ l : List ℚ, l.length < 2 → removeLinearBaseline l = l := by
  constructor
  · unfold removeLinearBaseline
    rw [if_neg (by omega)]
    rw [List.eq_replicate_iff]
    constructor
    · simp
    · intro b hb
      rcases List.mem_map.mp hb with ⟨i, hi, rfl⟩
      rw [List.mem_range] at hi
      have h0 : data[0]! = a := by
        have := hlin 0 (by omega)
        simpa using this
      have hn : data[data.length - 1]! = a + d * ((data.length : ℚ) - 1) := by
        have := hlin (data.length - 1) (by omega)
        rw [this]
        congr 1
        push_cast [Nat.cast_sub (by omega : 1 ≤ data.length)]
        ring
      rw [h0, hn, hlin i hi]
      have hc : ((data.length : ℚ) - 1) ≠ 0 := by
        have h3 : (2 : ℚ) ≤ (data.length : ℚ) := by exact_mod_cast h2
        linarith
      have hz : a + d * (i : ℚ)
          - (a + (a + d * ((data.length : ℚ) - 1) - a) * ((i : ℚ) / ((data.length : ℚ) - 1)))
          = 0 := by
        field_simp
        ring
      rw [hz]
      simp
  · intro l hl
    unfold removeLinearBaseline
    rw [if_pos hl]

/-- Witness for C8: the 3-sample line `[1, 3, 5]` (so `a = 1`, `d = 2`)
is mapped to `[0, 0, 0]`. -/
theorem claimC8_witness :
    2 ≤ ([1, 3, 5] : List ℚ).length
    ∧ (∀ i : ℕ, i < ([1, 3, 5] : List ℚ).length → ([1, 3, 5] : List ℚ)[i]! = 1 + 2 * i)
    ∧ (removeLinearBaseline [1, 3, 5] = List.replicate ([1, 3, 5] : List ℚ).length 0
        ∧ ∀ l : List ℚ, l.length < 2 → removeLinearBaseline l = l) := by
  have hlen : 2 ≤ ([1, 3, 5] : List ℚ).length := by norm_num
  have hlin : ∀ i : ℕ, i < ([1, 3, 5] : List ℚ).length → ([1, 3, 5] : List ℚ)[i]! = 1 + 2 * i := by
    intro i hi
    simp only [List.length_cons, List.length_nil] at hi
    interval_cases i <;> norm_num
  exact ⟨hlen, hlin, claimC8 [1, 3, 5] 1 2 hlen hlin⟩

/-! ## Claim C3 -/

/-- Claim C3: `detectAmbiguities` emits an `Ambiguity` record for an
annotation if and only if it has at least 2 candidates and the
confidence gap of the top two is at most the threshold; the record
carries both top candidates (`topCandidates` = first two), the gap (to
3 decimal places; exactly the gap whenever both confidences are
3-decimal rationals, as all matcher-produced confidences are), and the
full candidate list; an annotation with fewer than 2 candidates is never
emitted. -/
theorem claimC3 (annots : List Annot) (thr : ℚ) (a : Annot) :
    detectAmbiguities annots thr = annots.filterMap (mkAmbiguity thr)
    ∧ mkAmbiguity thr a =
        (if 2 ≤ a.topFiveCandidates.length ∧
            a.topFiveCandidates[0]!.confidence - a.topFiveCandidates[1]!.confidence ≤ thr then
          some
            { peakIndex := a.peakIndex
              peakPosition := a.peakPosition
              peakIntensity := a.peakIntensity
              peakFwhm := a.peakFwhm
              topConfidence := round3 a.topFiveCandidates[0]!.confidence
              secondConfidence := round3 a.topFiveCandidates[1]!.confidence
              confidenceGap := round3 (a.topFiveCandidates[0]!.confidence
                - a.topFiveCandidates[1]!.confidence)
              topCandidates := a.topFiveCandidates.take 2
              allCandidates := a.topFiveCandidates
              note := "Multiple plausible explanations - expert review recommended" }
        else none)
    ∧ (a.topFiveCandidates.length < 2 → mkAmbiguity thr a = none)
    ∧ ((∃ m : ℤ, a.topFiveCandidates[0]!.confidence = (m : ℚ) / 1000) →
        (∃ n : ℤ, a.topFiveCandidates[1]!.confidence = (n : ℚ) / 1000) →
        round3 (a.topFiveCandidates[0]!.confidence - a.topFiveCandidates[1]!.confidence)
          = a.topFiveCandidates[0]!.confidence - a.topFiveCandidates[1]!.confidence) := by
  refine ⟨rfl, ?_, ?_, ?_⟩
  · unfold mkAmbiguity
    by_cases h1 : 2 ≤ a.topFiveCandidates.length
    · by_cases hg : a.topFiveCandidates[0]!.confidence - a.topFiveCandidates[1]!.confidence ≤ thr
      · rw [if_pos h1, if_pos hg, if_pos ⟨h1, hg⟩]
      · rw [if_pos h1, if_neg hg, if_neg (by tauto)]
    · rw [if_neg h1, if_neg (by tauto)]
  · intro hlt
    unfold mkAmbiguity
    rw [if_neg (by omega)]
  · rintro ⟨m, hm⟩ ⟨n, hn⟩
    rw [hm, hn, div_sub_div_same]
    have : (m : ℚ) - (n : ℚ) = ((m - n : ℤ) : ℚ) := by push_cast; ring
    rw [this, round3_int_div]

/-- A candidate with confidence `q`, used in concrete scenarios. -/
def dCand (q : ℚ) : Candidate :=
  { vibrationMode := "m", source := "s", confidence := q, peakIndex := 0,
    ruleKey := "k", ruleSubtype := "1", secondaryPeaksFound := 0, notes := "",
    scoring :=
      { baseConfidence := q, shapeBonus := 0, intensityBonus := 0, secondaryBonus := 0,
        wavenumberMatch := true, shapeMatch := true, intensityMatch := true,
        secondaryMatch := true } }

/-- An annotation with top-two confidences 0.70 and 0.68 (Scenario D of
the specification). -/
def dAnnot : Annot :=
  { peakIndex := 0, peakPosition := 1715, peakIntensity := 1, peakFwhm := 30,
    peakSNR := 10, primaryMatch := dCand (7/10),
    topFiveCandidates := [dCand (7/10), dCand (68/100)], numCandidates := 2,
    confidenceRange := [7/10, 68/100], isAmbiguous := true }

/-- Witness for C3 at Scenario D (confidences 0.70 and 0.68, threshold
0.05): the emission equation holds, the carried gap is exactly the gap,
and the record is in fact emitted (gap 0.02 ≤ 0.05). -/
theorem claimC3_witness :
    (mkAmbiguity (5/100) dAnnot =
      (if 2 ≤ dAnnot.topFiveCandidates.length ∧
          dAnnot.topFiveCandidates[0]!.confidence - dAnnot.topFiveCandidates[1]!.confidence
            ≤ 5/100 then
        some
          { peakIndex := dAnnot.peakIndex
            peakPosition := dAnnot.peakPosition
            peakIntensity := dAnnot.peakIntensity
            peakFwhm := dAnnot.peakFwhm
            topConfidence := round3 dAnnot.topFiveCandidates[0]!.confidence
            secondConfidence := round3 dAnnot.topFiveCandidates[1]!.confidence
            confidenceGap := round3 (dAnnot.topFiveCandidates[0]!.confidence
              - dAnnot.topFiveCandidates[1]!.confidence)
            topCandidates := dAnnot.topFiveCandidates.take 2
            allCandidates := dAnnot.topFiveCandidates
            note := "Multiple plausible explanations - expert review recommended" }
      else none))
    ∧ round3 (dAnnot.topFiveCandidates[0]!.confidence - dAnnot.topFiveCandidates[1]!.confidence)
        = dAnnot.topFiveCandidates[0]!.confidence - dAnnot.topFiveCandidates[1]!.confidence
    ∧ (mkAmbiguity (5/100) dAnnot).isSome = true := by
  have h1 := (claimC3 [dAnnot] (5/100) dAnnot).2.1
  have h2 := (claimC3 [dAnnot] (5/100) dAnnot).2.2.2
    ⟨700, by norm_num [dAnnot, dCand]⟩ ⟨680, by norm_num [dAnnot, dCand]⟩
  refine ⟨h1, h2, ?_⟩
  rw [h1, if_pos]
  · rfl
  · constructor
    · norm_num [dAnnot]
    · norm_num [dAnnot, dCand]

/-! ## Claim C9 -/

theorem specFirstMatch_isSome_self (peaks : List Peak) (primaryIdx : ℕ)
    (spec : SecondarySpec) (maxGap : ℚ) (hidx : primaryIdx < peaks.length)
    (hwn : wavenumberMatch peaks[primaryIdx]!.position (spec.wavenumber.getD (0, 10000)) (1/10)
      = true)
    (hgap : 0 ≤ maxGap) :
    (specFirstMatch peaks[primaryIdx]!.position spec peaks maxGap).isSome = true := by
  unfold specFirstMatch
  rw [List.find?_isSome]
  refine ⟨primaryIdx, List.mem_range.mpr hidx, ?_⟩
  rw [Bool.and_eq_true]
  constructor
  · exact hwn
  · rw [decide_eq_true_eq, sub_self, abs_zero]
    exact hgap

theorem findSecondaryPeaksGo_eq_none (pos : ℚ) (peaks : List Peak) (maxGap : ℚ) :
    ∀ specs : List SecondarySpec, findSecondaryPeaksGo pos peaks maxGap specs = none →
      ∃ s ∈ specs, s.required.getD false = true ∧ specFirstMatch pos s peaks maxGap = none := by
  intro specs
  induction specs with
  | nil => intro h; simp [findSecondaryPeaksGo] at h
  | cons spec rest ih =>
    intro h
    unfold findSecondaryPeaksGo at h
    rcases hm : specFirstMatch pos spec peaks maxGap with _ | j
    · rw [hm] at h
      by_cases hr : spec.required.getD false = true
      · exact ⟨spec, List.mem_cons_self _ _, hr, hm⟩
      · rw [if_neg hr] at h
        rcases ih h with ⟨s, hs, hs1, hs2⟩
        exact ⟨s, List.mem_cons_of_mem _ hs, hs1, hs2⟩
    · rw [hm] at h
      rcases hrest : findSecondaryPeaksGo pos peaks maxGap rest with _ | ms
      · rcases ih hrest with ⟨s, hs, hs1, hs2⟩
        exact ⟨s, List.mem_cons_of_mem _ hs, hs1, hs2⟩
      · rw [hrest] at h
        simp at h

theorem findSecondaryPeaksGo_mem (pos : ℚ) (peaks : List Peak) (maxGap : ℚ) :
    ∀ (specs : List SecondarySpec) (ms : List SecondaryMatch) (spec : SecondarySpec),
      findSecondaryPeaksGo pos peaks maxGap specs = some ms → spec ∈ specs →
      (specFirstMatch pos spec peaks maxGap).isSome = true →
      ∃ m ∈ ms, m.spec = spec := by
  intro specs
  induction specs with
  | nil => intro ms spec _ hmem; simp at hmem
  | cons s rest ih =>
    intro ms spec h hmem hfound
    unfold findSecondaryPeaksGo at h
    rcases hm : specFirstMatch pos s peaks maxGap with _ | j
    · rw [hm] at h
      by_cases hr : s.required.getD false = true
      · simp [hr] at h
      · rw [if_neg hr] at h
        rcases List.mem_cons.mp hmem with rfl | hmem2
        · rw [hm] at hfound
          simp at hfound
        · exact ih ms spec h hmem2 hfound
    · rw [hm] at h
      rcases hrest : findSecondaryPeaksGo pos peaks maxGap rest with _ | ms2
      · rw [hrest] at h
        simp at h
      · rw [hrest] at h
        simp only [Option.some.injEq] at h
        subst h
        rcases List.mem_cons.mp hmem with rfl | hmem2
        · exact ⟨{ peakIdx := j, spec := spec }, List.mem_cons_self _ _, rfl⟩
        · rcases ih ms2 spec hrest hmem2 hfound with ⟨m, hm1, hm2⟩
          exact ⟨m, List.mem_cons_of_mem _ hm1, hm2⟩

/-- Claim C9: the secondary-peak search does not exclude the primary
peak itself.  If a secondary spec's 10%-tolerance range contains the
primary peak's own position, the spec's scan always succeeds (distance
0 is within any nonnegative maximum gap); consequently, whenever
`findSecondaryPeaks` bails out (the `requiredMissing` halving
situation), the culprit is some other spec, and whenever the scan
completes, the spec contributes an entry to the returned match list. -/
theorem claimC9 (peaks : List Peak) (primaryPeakIdx : ℕ) (specs : List SecondarySpec)
    (spec : SecondarySpec) (maxGap : ℚ)
    (hidx : primaryPeakIdx < peaks.length)
    (hmem : spec ∈ specs)
    (hwn : wavenumberMatch peaks[primaryPeakIdx]!.position (spec.wavenumber.getD (0, 10000)) (1/10)
      = true)
    (hgap : 0 ≤ maxGap) :
    (specFirstMatch peaks[primaryPeakIdx]!.position spec peaks maxGap).isSome = true
    ∧ (findSecondaryPeaksGo peaks[primaryPeakIdx]!.position peaks maxGap specs = none →
        ∃ s ∈ specs, s ≠ spec ∧ s.required.getD false = true
          ∧ specFirstMatch peaks[primaryPeakIdx]!.position s peaks maxGap = none)
    ∧ (∀ ms, findSecondaryPeaksGo peaks[primaryPeakIdx]!.position peaks maxGap specs = some ms →
        ∃ m ∈ findSecondaryPeaks primaryPeakIdx specs peaks maxGap, m.spec = spec)
    ∧ (∀ st : SubTypeRec, st.secondaryPeaks = some specs →
        requiredMissing primaryPeakIdx peaks st = true →
        ∃ s ∈ specs, s ≠ spec ∧ s.required.getD false = true
          ∧ specFirstMatch peaks[primaryPeakIdx]!.position s peaks 200 = none) := by
  have hfound := specFirstMatch_isSome_self peaks primaryPeakIdx spec maxGap hidx hwn hgap
  have hfound200 := specFirstMatch_isSome_self peaks primaryPeakIdx spec 200 hidx hwn (by norm_num)
  refine ⟨hfound, ?_, ?_, ?_⟩
  · intro hnone
    rcases findSecondaryPeaksGo_eq_none _ peaks maxGap specs hnone with ⟨s, hs, hs1, hs2⟩
    refine ⟨s, hs, ?_, hs1, hs2⟩
    intro hcontra
    rw [hcontra] at hs2
    rw [hs2] at hfound
    simp at hfound
  · intro ms hms
    unfold findSecondaryPeaks
    rw [hms]
    exact findSecondaryPeaksGo_mem _ peaks maxGap specs ms spec hms hmem hfound
  · intro st hst hreq
    unfold requiredMissing at hreq
    rw [Bool.and_eq_true, decide_eq_true_eq, decide_eq_true_eq] at hreq
    rcases hreq with ⟨-, hreq2⟩
    rw [hst] at hreq2
    simp only [Option.getD_some] at hreq2
    unfold findSecondaryPeaks at hreq2
    rcases hgo : findSecondaryPeaksGo peaks[primaryPeakIdx]!.position peaks 200 specs
      with _ | ms
    · rcases findSecondaryPeaksGo_eq_none _ peaks 200 specs hgo with ⟨s, hs, hs1, hs2⟩
      refine ⟨s, hs, ?_, hs1, hs2⟩
      intro hcontra
      rw [hcontra] at hs2
      rw [hs2] at hfound200
      simp at hfound200
    · rw [hgo] at hreq2
      simp only [Option.getD_some] at hreq2
      rcases findSecondaryPeaksGo_mem _ peaks 200 specs ms spec hgo hmem hfound200
        with ⟨m, hm1, -⟩
      rw [List.length_eq_zero.mp hreq2] at hm1
      simp at hm1

/-! ## Concrete records shared by the scenario theorems -/

/-- A detected peak at 1715 cm⁻¹ with FWHM 30 (Scenario C and E). -/
def c5peak : Peak :=
  { position := 1715, intensity := 1, fwhm := 30, height := 1, prominence := 1,
    snr := 10, index := 0 }

/-- A required secondary spec whose range no detected peak satisfies. -/
def c5spec : SecondarySpec := { wavenumber := some (9000, 9100), required := some true }

/-- A secondary spec whose 10%-tolerance range contains 1715, the
primary peak's own position. -/
def c9spec : SecondarySpec := { wavenumber := some (1700, 1730), required := some true }

/-- A subtype with declared base confidence 0.7531, a matching primary
range and a required, unsatisfiable secondary spec. -/
def c5st : SubTypeRec :=
  { id := some "1", source := some "s", confidence := some (7531/10000),
    primaryPeak := some
      { wavenumber := some (1700, 1750), shape := some "unknown-shape",
        intensity := some "unknown-intensity" },
    secondaryPeaks := some [c5spec], notes := none }

/-- The same subtype with its secondary-peak requirement absent. -/
def c5stNoSec : SubTypeRec := { c5st with secondaryPeaks := some [] }

/-- A one-mode rule database containing only `c5st`. -/
def c5db : RulesDb :=
  { vibrationModes := some [("co", { name := some "C=O stretch", subTypes := some [c5st] })] }

/-- A one-mode rule database containing only `c5stNoSec`. -/
def c5dbNoSec : RulesDb :=
  { vibrationModes := some [("co", { name := some "C=O stretch", subTypes := some [c5stNoSec] })] }

/-- Witness for C9: a required secondary spec with range [1700, 1730]
around the primary peak at 1715 is always found (e.g. by the primary
peak itself). -/
theorem claimC9_witness :
    0 < ([c5peak] : List Peak).length
    ∧ c9spec ∈ [c9spec]
    ∧ wavenumberMatch ([c5peak] : List Peak)[0]!.position (c9spec.wavenumber.getD (0, 10000)) (1/10)
        = true
    ∧ (0:ℚ) ≤ 200
    ∧ (specFirstMatch ([c5peak] : List Peak)[0]!.position c9spec [c5peak] 200).isSome = true := by
  have hidx : 0 < ([c5peak] : List Peak).length := by norm_num
  have hmem : c9spec ∈ [c9spec] := List.mem_cons_self _ _
  have hwn : wavenumberMatch ([c5peak] : List Peak)[0]!.position
      (c9spec.wavenumber.getD (0, 10000)) (1/10) = true := by
    norm_num [wavenumberMatch, c9spec, c5peak]
  have hgap : (0:ℚ) ≤ 200 := by norm_num
  exact ⟨hidx, hmem, hwn, hgap,
    (claimC9 [c5peak] 0 [c9spec] c9spec 200 hidx hmem hwn hgap).1⟩

/-! ## Claim C5 -/

theorem adjustedConfidence1_nonneg (peak : Peak) (maxIntensity : ℚ) (st : SubTypeRec) :
    0 ≤ adjustedConfidence1 peak maxIntensity st :=
  le_max_left _ _

theorem adjustedConfidence1_le_one (peak : Peak) (maxIntensity : ℚ) (st : SubTypeRec) :
    adjustedConfidence1 peak maxIntensity st ≤ 1 := by
  unfold adjustedConfidence1
  exact max_le (by norm_num) (min_le_right _ _)

theorem requiredMissing_noSec (peakIdx : ℕ) (allPeaks : List Peak) (st : SubTypeRec) :
    requiredMissing peakIdx allPeaks { st with secondaryPeaks := some [] } = false := by
  unfold requiredMissing
  simp

theorem adjustedConfidence1_noSec (peak : Peak) (maxIntensity : ℚ) (st : SubTypeRec) :
    adjustedConfidence1 peak maxIntensity { st with secondaryPeaks := some [] }
      = adjustedConfidence1 peak maxIntensity st := by
  unfold adjustedConfidence1 subtypePrimary
  simp

/-- Claim C5 (amended): when a required secondary spec finds no match
(`requiredMissing`), the candidate's confidence before the final
3-decimal rounding is exactly half of the pre-rounding confidence the
same subtype would receive with its secondary-peak requirement absent
and no secondary bonus (modelled by emptying its secondary spec list),
and the returned confidence is the 3-decimal rounding of that half.  The
returned (rounded) values themselves need not be in exact 1:2 ratio; see
the counterexample. -/
theorem claimC5 (peakIdx : ℕ) (peak : Peak) (allPeaks : List Peak) (maxIntensity : ℚ)
    (modeKey modeName : String) (st : SubTypeRec)
    (hmiss : requiredMissing peakIdx allPeaks st = true) :
    adjustedConfidence2 peakIdx peak allPeaks maxIntensity st
      = (1/2) * adjustedConfidence2 peakIdx peak allPeaks maxIntensity
          { st with secondaryPeaks := some [] }
    ∧ ∀ c, scoreSubtype peakIdx peak allPeaks maxIntensity modeKey modeName st = some c →
        c.confidence = round3 ((1/2) * adjustedConfidence1 peak maxIntensity st) := by
  have hkey : adjustedConfidence2 peakIdx peak allPeaks maxIntensity st
      = adjustedConfidence1 peak maxIntensity st * (1/2) := by
    unfold adjustedConfidence2
    rw [if_pos hmiss]
  have hnosec : adjustedConfidence2 peakIdx peak allPeaks maxIntensity
      { st with secondaryPeaks := some [] } = adjustedConfidence1 peak maxIntensity st := by
    unfold adjustedConfidence2
    rw [if_neg (by rw [requiredMissing_noSec]; exact Bool.false_ne_true)]
    rw [adjustedConfidence1_noSec]
    have hms : findSecondaryPeaks peakIdx
        (({ st with secondaryPeaks := some [] } : SubTypeRec).secondaryPeaks.getD [])
        allPeaks 200 = [] := by
      simp [findSecondaryPeaks, findSecondaryPeaksGo]
    rw [hms]
    simp only [List.length_nil, Nat.cast_zero, mul_zero, add_zero]
    rw [min_eq_left (adjustedConfidence1_le_one peak maxIntensity st),
      max_eq_right (adjustedConfidence1_nonneg peak maxIntensity st)]
  constructor
  · rw [hkey, hnosec]
    ring
  · intro c hc
    unfold scoreSubtype at hc
    by_cases hg : gatesPass peak st = true
    · rw [if_pos hg] at hc
      simp only [Option.some.injEq] at hc
      subst hc
      simp only
      rw [hkey]
      ring_nf
    · rw [if_neg hg] at hc
      cases hc

theorem c5_noMatch : specFirstMatch 1715 c5spec [c5peak] 200 = none := by
  unfold specFirstMatch
  rw [show List.range ([c5peak] : List Peak).length = [0] from by decide]
  rw [List.find?_cons_of_neg, List.find?_nil]
  simp only [List.getElem!_cons_zero]
  norm_num [c5spec, c5peak, wavenumberMatch]

theorem c5_go_none : findSecondaryPeaksGo 1715 [c5peak] 200 [c5spec] = none := by
  unfold findSecondaryPeaksGo
  rw [c5_noMatch]
  simp [c5spec]

theorem c5_requiredMissing : requiredMissing 0 [c5peak] c5st = true := by
  unfold requiredMissing
  simp only [c5st, Option.getD_some]
  unfold findSecondaryPeaks
  have hpos : ([c5peak] : List Peak)[0]!.position = (1715 : ℚ) := by simp [c5peak]
  simp only [hpos]
  rw [c5_go_none]
  simp [c5spec]

/-- Witness for C5 (Scenario E): the subtype `c5st` (base confidence
0.7531, required secondary spec in [9000, 9100]) against the lone peak
at 1715: the requirement is missing and the halving relation holds. -/
theorem claimC5_witness :
    requiredMissing 0 [c5peak] c5st = true
    ∧ (adjustedConfidence2 0 c5peak [c5peak] 1 c5st
        = (1/2) * adjustedConfidence2 0 c5peak [c5peak] 1 { c5st with secondaryPeaks := some [] }
      ∧ ∀ c, scoreSubtype 0 c5peak [c5peak] 1 "co" "C=O stretch" c5st = some c →
          c.confidence = round3 ((1/2) * adjustedConfidence1 c5peak 1 c5st)) :=
  ⟨c5_requiredMissing, claimC5 0 c5peak [c5peak] 1 "co" "C=O stretch" c5st c5_requiredMissing⟩

theorem c5_shapeSpecs : shapeSpecs "unknown-shape" = none := by decide

theorem c5_intensityThresholds : intensityThresholds "unknown-intensity" = none := by decide

theorem c5_gates : gatesPass c5peak c5st = true := by
  unfold gatesPass subtypePrimary
  rw [Bool.and_eq_true]
  constructor
  · norm_num [c5st, c5peak, wavenumberMatch]
  · have h : jsOrStr (some "unknown-shape") "sharp" = "unknown-shape" := by decide
    simp only [c5st, c5peak, Option.getD_some, jsOrStr]
    rw [if_neg (by decide)]
    unfold shapeMatch
    rw [c5_shapeSpecs]

theorem c5_gatesNoSec : gatesPass c5peak c5stNoSec = true := by
  have h : subtypePrimary c5stNoSec = subtypePrimary c5st := by
    unfold subtypePrimary c5stNoSec
    simp
  unfold gatesPass
  rw [h]
  have h2 := c5_gates
  unfold gatesPass at h2
  exact h2

theorem c5_maxIntensity : maxIntensityOf [c5peak] = 1 := by
  simp [maxIntensityOf, c5peak]

theorem c5_a1 : adjustedConfidence1 c5peak 1 c5st = 7531/10000 := by
  unfold adjustedConfidence1 subtypePrimary
  simp only [c5st, c5peak, Option.getD_some, jsOrStr]
  rw [if_neg (by decide), if_neg (by decide)]
  unfold shapeMatch intensityCheck
  rw [c5_shapeSpecs, c5_intensityThresholds]
  norm_num [jsOrQ]

theorem c5_a1_noSec : adjustedConfidence1 c5peak 1 c5stNoSec = 7531/10000 := by
  have h : c5stNoSec = { c5st with secondaryPeaks := some [] } := rfl
  rw [h, adjustedConfidence1_noSec, c5_a1]

theorem c5_adj2 : adjustedConfidence2 0 c5peak [c5peak] 1 c5st = 7531/20000 := by
  unfold adjustedConfidence2
  rw [if_pos c5_requiredMissing, c5_a1]
  norm_num

theorem c5_adj2_noSec : adjustedConfidence2 0 c5peak [c5peak] 1 c5stNoSec = 7531/10000 := by
  have h : c5stNoSec = { c5st with secondaryPeaks := some [] } := rfl
  unfold adjustedConfidence2
  rw [h, if_neg (by rw [requiredMissing_noSec]; exact Bool.false_ne_true)]
  rw [adjustedConfidence1_noSec, c5_a1]
  have hms : findSecondaryPeaks 0
      (({ c5st with secondaryPeaks := some [] } : SubTypeRec).secondaryPeaks.getD [])
      [c5peak] 200 = [] := by
    simp [findSecondaryPeaks, findSecondaryPeaksGo]
  rw [hms]
  norm_num

theorem c5_matchMap :
    (matchPeakCandidates 0 c5peak c5db [c5peak]).map Candidate.confidence = [377/1000] := by
  unfold matchPeakCandidates sortedCandidates collectCandidates
  simp only [c5db, Option.getD_some, List.flatMap_cons, List.flatMap_nil, List.append_nil,
    List.filterMap_cons, List.filterMap_nil]
  rw [c5_maxIntensity]
  unfold scoreSubtype
  rw [if_pos c5_gates]
  simp only [List.mergeSort_singleton, List.take_succ_cons, List.take_nil, List.map_cons,
    List.map_nil]
  rw [c5_adj2]
  unfold round3
  rw [show (1000 : ℚ) * (7531/20000) = 7531/20 by norm_num]
  rw [round_eq]
  norm_num

theorem c5_matchMapNoSec :
    (matchPeakCandidates 0 c5peak c5dbNoSec [c5peak]).map Candidate.confidence = [753/1000] := by
  unfold matchPeakCandidates sortedCandidates collectCandidates
  simp only [c5dbNoSec, Option.getD_some, List.flatMap_cons, List.flatMap_nil, List.append_nil,
    List.filterMap_cons, List.filterMap_nil]
  rw [c5_maxIntensity]
  unfold scoreSubtype
  rw [if_pos c5_gatesNoSec]
  simp only [List.mergeSort_singleton, List.take_succ_cons, List.take_nil, List.map_cons,
    List.map_nil]
  rw [c5_adj2_noSec]
  unfold round3
  rw [show (1000 : ℚ) * (7531/10000) = 7531/10 by norm_num]
  rw [round_eq]
  norm_num

/-- Counterexample for C5 as stated: with base confidence 0.7531 the
candidate with the unsatisfied required secondary spec is returned with
confidence 0.377, while the same subtype without the requirement is
returned with confidence 0.753; 0.377 is not exactly half of 0.753
because the halved value 0.37655 is rounded to 3 decimal places before
being returned. -/
theorem claimC5_counterexample :
    (matchPeakCandidates 0 c5peak c5db [c5peak]).map Candidate.confidence = [377/1000]
    ∧ (matchPeakCandidates 0 c5peak c5dbNoSec [c5peak]).map Candidate.confidence = [753/1000]
    ∧ ¬ (377/1000 : ℚ) = (1/2) * (753/1000) :=
  ⟨c5_matchMap, c5_matchMapNoSec, by norm_num⟩

/-! ## Claims C1 and C4 -/

theorem adjustedConfidence2_nonneg (peakIdx : ℕ) (peak : Peak) (allPeaks : List Peak)
    (maxIntensity : ℚ) (st : SubTypeRec) :
    0 ≤ adjustedConfidence2 peakIdx peak allPeaks maxIntensity st := by
  unfold adjustedConfidence2
  by_cases h : requiredMissing peakIdx allPeaks st = true
  · rw [if_pos h]
    have := adjustedConfidence1_nonneg peak maxIntensity st
    linarith
  · rw [if_neg h]
    exact le_max_left _ _

theorem adjustedConfidence2_le_one (peakIdx : ℕ) (peak : Peak) (allPeaks : List Peak)
    (maxIntensity : ℚ) (st : SubTypeRec) :
    adjustedConfidence2 peakIdx peak allPeaks maxIntensity st ≤ 1 := by
  unfold adjustedConfidence2
  by_cases h : requiredMissing peakIdx allPeaks st = true
  · rw [if_pos h]
    have := adjustedConfidence1_le_one peak maxIntensity st
    linarith
  · rw [if_neg h]
    exact max_le (by norm_num) (min_le_right _ _)

theorem scoreSubtype_eq_some {peakIdx : ℕ} {peak : Peak} {allPeaks : List Peak}
    {maxIntensity : ℚ} {modeKey modeName : String} {st : SubTypeRec} {c : Candidate}
    (h : scoreSubtype peakIdx peak allPeaks maxIntensity modeKey modeName st = some c) :
    c.confidence = round3 (adjustedConfidence2 peakIdx peak allPeaks maxIntensity st) := by
  unfold scoreSubtype at h
  by_cases hg : gatesPass peak st = true
  · rw [if_pos hg] at h
    simp only [Option.some.injEq] at h
    subst h
    rfl
  · rw [if_neg hg] at h
    cases h

theorem mem_collectCandidates {peakIdx : ℕ} {peak : Peak} {rulesDb : RulesDb}
    {allPeaks : List Peak} {c : Candidate}
    (h : c ∈ collectCandidates peakIdx peak rulesDb allPeaks) :
    ∃ entry ∈ rulesDb.vibrationModes.getD [], ∃ st ∈ entry.2.subTypes.getD [],
      scoreSubtype peakIdx peak allPeaks (maxIntensityOf allPeaks) entry.1
        (jsOrStr entry.2.name entry.1) st = some c := by
  unfold collectCandidates at h
  rcases List.mem_flatMap.mp h with ⟨entry, hentry, hc⟩
  rcases List.mem_filterMap.mp hc with ⟨st, hst, hsc⟩
  exact ⟨entry, hentry, st, hst, hsc⟩

theorem mem_matchPeakCandidates {peakIdx : ℕ} {peak : Peak} {rulesDb : RulesDb}
    {allPeaks : List Peak} {c : Candidate}
    (h : c ∈ matchPeakCandidates peakIdx peak rulesDb allPeaks) :
    c ∈ collectCandidates peakIdx peak rulesDb allPeaks := by
  unfold matchPeakCandidates sortedCandidates at h
  exact List.mem_mergeSort.mp (List.take_subset _ _ h)

/-- Claim C1: every candidate returned by `matchPeakCandidates` has
confidence in `[0, 1]`, and that confidence is the 3-decimal rounding of
the composition `clamp(base + shapeBonus + intensityBonus, 0, 1)`
followed by either multiplication by `0.5` (required secondary spec
missing) or addition of the secondary bonus and re-clamping, where
`base` is the declared subtype confidence defaulting to `0.7`. -/
theorem claimC1 (peakIdx : ℕ) (peak : Peak) (rulesDb : RulesDb) (allPeaks : List Peak) :
    ∀ c ∈ matchPeakCandidates peakIdx peak rulesDb allPeaks,
      (0 ≤ c.confidence ∧ c.confidence ≤ 1)
      ∧ ∃ entry ∈ rulesDb.vibrationModes.getD [], ∃ st ∈ entry.2.subTypes.getD [],
          scoreSubtype peakIdx peak allPeaks (maxIntensityOf allPeaks) entry.1
            (jsOrStr entry.2.name entry.1) st = some c
          ∧ c.confidence
              = round3 (adjustedConfidence2 peakIdx peak allPeaks (maxIntensityOf allPeaks) st)
          ∧ adjustedConfidence2 peakIdx peak allPeaks (maxIntensityOf allPeaks) st
              = (if requiredMissing peakIdx allPeaks st then
                  adjustedConfidence1 peak (maxIntensityOf allPeaks) st * (1/2)
                else max 0 (min (adjustedConfidence1 peak (maxIntensityOf allPeaks) st
                  + (1/10) * ((findSecondaryPeaks peakIdx (st.secondaryPeaks.getD [])
                      allPeaks 200).length : ℚ)) 1))
          ∧ adjustedConfidence1 peak (maxIntensityOf allPeaks) st
              = max 0 (min (jsOrQ st.confidence (7/10)
                  + (shapeMatch peak.fwhm (jsOrStr (subtypePrimary st).shape "sharp")).2
                  + (intensityCheck peak.intensity
                      (jsOrStr (subtypePrimary st).intensity "medium")
                      (maxIntensityOf allPeaks)).2) 1) := by
  intro c hc
  rcases mem_collectCandidates (mem_matchPeakCandidates hc) with ⟨entry, hentry, st, hst, hsc⟩
  have hconf := scoreSubtype_eq_some hsc
  constructor
  · rw [hconf]
    exact ⟨round3_nonneg (adjustedConfidence2_nonneg peakIdx peak allPeaks _ st),
      round3_le_one (adjustedConfidence2_le_one peakIdx peak allPeaks _ st)⟩
  · exact ⟨entry, hentry, st, hst, hsc, hconf, rfl, rfl⟩

/-- The single candidate produced by `c5db` for the peak at 1715. -/
def c1cand : Candidate := (matchPeakCandidates 0 c5peak c5db [c5peak])[0]!

theorem c1cand_mem : c1cand ∈ matchPeakCandidates 0 c5peak c5db [c5peak] := by
  have hlen : (matchPeakCandidates 0 c5peak c5db [c5peak]).length = 1 := by
    have h := congrArg List.length c5_matchMap
    rw [List.length_map] at h
    simpa using h
  have hpos : 0 < (matchPeakCandidates 0 c5peak c5db [c5peak]).length := by omega
  unfold c1cand
  rw [getElem!_pos (matchPeakCandidates 0 c5peak c5db [c5peak]) 0 hpos]
  exact List.getElem_mem hpos

/-- Witness for C1: the candidate returned for the 1715 peak against
`c5db` has confidence in `[0, 1]` with the stated composition. -/
theorem claimC1_witness :
    c1cand ∈ matchPeakCandidates 0 c5peak c5db [c5peak]
    ∧ ((0 ≤ c1cand.confidence ∧ c1cand.confidence ≤ 1)
      ∧ ∃ entry ∈ c5db.vibrationModes.getD [], ∃ st ∈ entry.2.subTypes.getD [],
          scoreSubtype 0 c5peak [c5peak] (maxIntensityOf [c5peak]) entry.1
            (jsOrStr entry.2.name entry.1) st = some c1cand
          ∧ c1cand.confidence
              = round3 (adjustedConfidence2 0 c5peak [c5peak] (maxIntensityOf [c5peak]) st)
          ∧ adjustedConfidence2 0 c5peak [c5peak] (maxIntensityOf [c5peak]) st
              = (if requiredMissing 0 [c5peak] st then
                  adjustedConfidence1 c5peak (maxIntensityOf [c5peak]) st * (1/2)
                else max 0 (min (adjustedConfidence1 c5peak (maxIntensityOf [c5peak]) st
                  + (1/10) * ((findSecondaryPeaks 0 (st.secondaryPeaks.getD [])
                      [c5peak] 200).length : ℚ)) 1))
          ∧ adjustedConfidence1 c5peak (maxIntensityOf [c5peak]) st
              = max 0 (min (jsOrQ st.confidence (7/10)
                  + (shapeMatch c5peak.fwhm (jsOrStr (subtypePrimary st).shape "sharp")).2
                  + (intensityCheck c5peak.intensity
                      (jsOrStr (subtypePrimary st).intensity "medium")
                      (maxIntensityOf [c5peak])).2) 1)) :=
  ⟨c1cand_mem, claimC1 0 c5peak c5db [c5peak] c1cand c1cand_mem⟩

/-- Claim C4: `matchPeakCandidates` returns at most 5 candidates,
ordered by non-increasing confidence; it is the 5-element truncation of
the stable sort of the collected candidates, and for every confidence
value the returned candidates with that confidence form an initial
segment (in database iteration order) of the collected candidates with
that confidence. -/
theorem claimC4 (peakIdx : ℕ) (peak : Peak) (rulesDb : RulesDb) (allPeaks : List Peak) :
    (matchPeakCandidates peakIdx peak rulesDb allPeaks).length ≤ 5
    ∧ (matchPeakCandidates peakIdx peak rulesDb allPeaks).Pairwise
        (fun a b => b.confidence ≤ a.confidence)
    ∧ matchPeakCandidates peakIdx peak rulesDb allPeaks
        = (sortedCandidates peakIdx peak rulesDb allPeaks).take 5
    ∧ (∀ q : ℚ, (sortedCandidates peakIdx peak rulesDb allPeaks).filter
          (fun c => decide (c.confidence = q))
        = (collectCandidates peakIdx peak rulesDb allPeaks).filter
          (fun c => decide (c.confidence = q)))
    ∧ (∀ q : ℚ, ∃ t, (collectCandidates peakIdx peak rulesDb allPeaks).filter
          (fun c => decide (c.confidence = q))
        = (matchPeakCandidates peakIdx peak rulesDb allPeaks).filter
          (fun c => decide (c.confidence = q)) ++ t) := by
  have htrans : ∀ a b c : Candidate, candidateLE a b → candidateLE b c → candidateLE a c := by
    intro a b c hab hbc
    unfold candidateLE at hab hbc ⊢
    rw [decide_eq_true_eq] at hab hbc ⊢
    exact le_trans hbc hab
  have htotal : ∀ a b : Candidate, candidateLE a b || candidateLE b a := by
    intro a b
    unfold candidateLE
    rcases le_total a.confidence b.confidence with h | h
    · simp [h]
    · simp [h]
  have hfilter : ∀ q : ℚ, (sortedCandidates peakIdx peak rulesDb allPeaks).filter
      (fun c => decide (c.confidence = q))
      = (collectCandidates peakIdx peak rulesDb allPeaks).filter
        (fun c => decide (c.confidence = q)) := by
    intro q
    have hpw : ((collectCandidates peakIdx peak rulesDb allPeaks).filter
        (fun c => decide (c.confidence = q))).Pairwise (fun a b => candidateLE a b = true) := by
      apply List.pairwise_of_forall_mem_list
      intro a ha b hb
      have ha2 := (List.mem_filter.mp ha).2
      have hb2 := (List.mem_filter.mp hb).2
      rw [decide_eq_true_eq] at ha2 hb2
      unfold candidateLE
      rw [decide_eq_true_eq, ha2, hb2]
    have hsub : ((collectCandidates peakIdx peak rulesDb allPeaks).filter
        (fun c => decide (c.confidence = q))).Sublist
        (sortedCandidates peakIdx peak rulesDb allPeaks) :=
      List.sublist_mergeSort htrans htotal hpw (List.filter_sublist _)
    have hsub2 := List.Sublist.filter (fun c => decide (c.confidence = q)) hsub
    rw [List.filter_filter] at hsub2
    have hsimp : (List.filter (fun a =>
        decide (a.confidence = q) && decide (a.confidence = q))
        (collectCandidates peakIdx peak rulesDb allPeaks))
        = (collectCandidates peakIdx peak rulesDb allPeaks).filter
          (fun c => decide (c.confidence = q)) := by
      apply List.filter_congr
      intro a _
      rw [Bool.and_self]
    rw [hsimp] at hsub2
    have hperm : ((sortedCandidates peakIdx peak rulesDb allPeaks).filter
        (fun c => decide (c.confidence = q))).Perm
        ((collectCandidates peakIdx peak rulesDb allPeaks).filter
          (fun c => decide (c.confidence = q))) :=
      List.Perm.filter _ (List.mergeSort_perm _ _)
    exact (List.Sublist.eq_of_length hsub2 hperm.length_eq.symm).symm
  refine ⟨?_, ?_, rfl, hfilter, ?_⟩
  · exact List.length_take_le _ _
  · have hs := List.sorted_mergeSort htrans htotal
      (collectCandidates peakIdx peak rulesDb allPeaks)
    have hs2 : (sortedCandidates peakIdx peak rulesDb allPeaks).Pairwise
        (fun a b => b.confidence ≤ a.confidence) := by
      apply List.Pairwise.imp _ hs
      intro a b hab
      unfold candidateLE at hab
      rwa [decide_eq_true_eq] at hab
    exact List.Pairwise.sublist (List.take_sublist _ _) hs2
  · intro q
    refine ⟨((sortedCandidates peakIdx peak rulesDb allPeaks).drop 5).filter
      (fun c => decide (c.confidence = q)), ?_⟩
    rw [← hfilter q]
    conv_lhs => rw [← List.take_append_drop 5 (sortedCandidates peakIdx peak rulesDb allPeaks)]
    rw [List.filter_append]
    have hdef : matchPeakCandidates peakIdx peak rulesDb allPeaks
        = (sortedCandidates peakIdx peak rulesDb allPeaks).take 5 := rfl
    rw [hdef]

/-! ## Claim C7 -/

theorem gaussianWeights_length (expQ : ℚ → ℚ) (size : ℕ) :
    (gaussianWeights expQ size).length = size := by
  unfold gaussianWeights
  rw [List.length_map, List.length_map, List.length_range]

theorem foldl_ifpair (l : List ℕ) (P : ℕ → Prop) [DecidablePred P]
    (u v : ℕ → ℚ) (x y : ℚ) :
    l.foldl (fun (acc : ℚ × ℚ) (i : ℕ) => if P i then (acc.1 + u i, acc.2 + v i) else acc) (x, y)
      = (x + (l.map (fun i => if P i then u i else 0)).sum,
         y + (l.map (fun i => if P i then v i else 0)).sum) := by
  induction l generalizing x y with
  | nil => simp
  | cons a l ih =>
    simp only [List.foldl_cons, List.map_cons, List.sum_cons]
    by_cases hp : P a
    · rw [if_pos hp, if_pos hp, if_pos hp, ih, Prod.mk.injEq]
      constructor <;> ring
    · rw [if_neg hp, if_neg hp, if_neg hp, ih]
      simp

theorem fitPolynomial_replicate (expQ : ℚ → ℚ) (m : ℕ) (c : ℚ) (degree : ℕ)
    (idx : ℕ) (hidx : idx < m) :
    (fitPolynomial expQ (List.replicate m c) degree)[idx]! = c := by
  have hlen : (fitPolynomial expQ (List.replicate m c) degree).length = m := by
    unfold fitPolynomial
    rw [List.length_map, List.length_range, List.length_replicate]
  rw [getElem!_pos (fitPolynomial expQ (List.replicate m c) degree) idx (by omega)]
  unfold fitPolynomial
  simp only [List.getElem_map, List.getElem_range, List.length_replicate]
  rw [foldl_ifpair (List.range (gaussianWeights expQ (degree + 1)).length)
    (fun (i : ℕ) => 0 ≤ (idx : ℤ) - ((gaussianWeights expQ (degree + 1)).length / 2 : ℕ) + (i : ℤ)
      ∧ (idx : ℤ) - ((gaussianWeights expQ (degree + 1)).length / 2 : ℕ) + (i : ℤ) < (m : ℤ))
    (fun (i : ℕ) => (List.replicate m c)[((idx : ℤ)
      - ((gaussianWeights expQ (degree + 1)).length / 2 : ℕ) + (i : ℤ)).toNat]!
      * (gaussianWeights expQ (degree + 1))[i]!)
    (fun (i : ℕ) => (gaussianWeights expQ (degree + 1))[i]!) 0 0]
  simp only [zero_add]
  by_cases hpos : 0 < ((List.range (gaussianWeights expQ (degree + 1)).length).map
      (fun (i : ℕ) => if 0 ≤ (idx : ℤ) - ((gaussianWeights expQ (degree + 1)).length / 2 : ℕ) + (i : ℤ)
          ∧ (idx : ℤ) - ((gaussianWeights expQ (degree + 1)).length / 2 : ℕ) + (i : ℤ) < (m : ℤ)
        then (gaussianWeights expQ (degree + 1))[i]! else 0)).sum
  · rw [if_pos hpos]
    have hFG : ((List.range (gaussianWeights expQ (degree + 1)).length).map
        (fun (i : ℕ) => if 0 ≤ (idx : ℤ) - ((gaussianWeights expQ (degree + 1)).length / 2 : ℕ) + (i : ℤ)
            ∧ (idx : ℤ) - ((gaussianWeights expQ (degree + 1)).length / 2 : ℕ) + (i : ℤ) < (m : ℤ)
          then (List.replicate m c)[((idx : ℤ)
            - ((gaussianWeights expQ (degree + 1)).length / 2 : ℕ) + (i : ℤ)).toNat]!
            * (gaussianWeights expQ (degree + 1))[i]! else 0)).sum
        = c * ((List.range (gaussianWeights expQ (degree + 1)).length).map
        (fun (i : ℕ) => if 0 ≤ (idx : ℤ) - ((gaussianWeights expQ (degree + 1)).length / 2 : ℕ) + (i : ℤ)
            ∧ (idx : ℤ) - ((gaussianWeights expQ (degree + 1)).length / 2 : ℕ) + (i : ℤ) < (m : ℤ)
          then (gaussianWeights expQ (degree + 1))[i]! else 0)).sum := by
      rw [← List.sum_map_mul_left]
      congr 1
      apply List.map_congr_left
      intro i _
      by_cases hp : 0 ≤ (idx : ℤ) - ((gaussianWeights expQ (degree + 1)).length / 2 : ℕ) + (i : ℤ)
          ∧ (idx : ℤ) - ((gaussianWeights expQ (degree + 1)).length / 2 : ℕ) + (i : ℤ) < (m : ℤ)
      · rw [if_pos hp, if_pos hp]
        rcases hp with ⟨hp1, hp2⟩
        have htn : (((idx : ℤ) - ((gaussianWeights expQ (degree + 1)).length / 2 : ℕ)
            + (i : ℤ)).toNat) < m := by omega
        rw [getElem!_pos (List.replicate m c) _ (by simpa using htn), List.getElem_replicate]
      · rw [if_neg hp, if_neg hp, mul_zero]
    rw [hFG, mul_div_assoc, div_self (ne_of_gt hpos), mul_one]
  · rw [if_neg hpos]
    rw [getElem!_pos (List.replicate m c) idx (by simpa using hidx), List.getElem_replicate]

/-- Claim C7: `savitzkyGolayFilter` maps every constant signal to
itself, for every window length, every polynomial order and in fact
every choice of the `Math.exp` stand-in (inside the window the weighted
average of a constant is that constant whenever the weight sum is
positive, and the source falls back to the input value otherwise). -/
theorem claimC7 (expQ : ℚ → ℚ) (n windowLength polyorder : ℕ) (c : ℚ) :
    savitzkyGolayFilter expQ (List.replicate n c) windowLength polyorder
      = List.replicate n c := by
  unfold savitzkyGolayFilter
  simp only [List.length_replicate]
  split
  · rfl
  · rw [List.eq_replicate_iff]
    refine ⟨by simp, ?_⟩
    intro b hb
    rcases List.mem_map.mp hb with ⟨i, hi, rfl⟩
    rw [List.mem_range] at hi
    simp only [List.drop_replicate, List.take_replicate, List.length_replicate]
    have hLpos : 0 < min (min n (i + sgWindowLength windowLength polyorder / 2 + 1)
        - (i - sgWindowLength windowLength polyorder / 2))
        (n - (i - sgWindowLength windowLength polyorder / 2)) := by
      omega
    exact fitPolynomial_replicate expQ _ c polyorder _ (Nat.div_lt_self hLpos (by norm_num))

/-- Witness-style evaluation for C7 (the theorem itself has no
hypotheses): smoothing the constant signal `[5, 5, 5]` with the
primitive `fun _ => 1` in place of `Math.exp` returns it unchanged. -/
theorem claimC7_witness :
    savitzkyGolayFilter (fun (_ : ℚ) => (1 : ℚ)) (List.replicate 3 (5 : ℚ)) 3 1
      = List.replicate 3 (5 : ℚ) :=
  claimC7 (fun _ => 1) 3 3 1 5

/-! ## Claim C6 -/

theorem le_sub_foldl_min (x d seed : ℚ) (l : List ℚ) :
    x ≤ d - l.foldl min seed ↔ (x ≤ d - seed ∨ ∃ y ∈ l, x ≤ d - y) := by
  constructor
  · intro h
    rcases foldl_min_attained l seed with h2 | h2
    · left
      rw [h2] at h
      exact h
    · right
      exact ⟨_, h2, h⟩
  · intro h
    rcases h with h | ⟨y, hy, h⟩
    · have := foldl_min_le_seed l seed
      linarith
    · have := foldl_min_le_mem l seed hy
      linarith

/-- Claim C6 (amended): an index is kept by the prominence stage of
`findPeaks` iff it is a strict local maximum of height at least
`height` whose prominence `min(data[i] - minLeft, data[i] - minRight)`
is at least the threshold, where `minLeft` ranges over the up-to-50
samples `data[max(0, i-50) .. i-1]` but `minRight` ranges over the
up-to-49 samples `data[i+1 .. min(n, i+50) - 1]` (the source loop stops
at `i + 49`, not `i + 50`); the kept candidates then feed the distance
filter of `findPeaks`.  The window minima are phrased as existentials
(the prominence exceeds the threshold iff some window sample is low
enough). -/
theorem claimC6 (data : List ℚ) (height prominence : ℚ) (distance : ℕ) (i : ℕ) :
    (i ∈ promCandidates data height prominence ↔
      (1 ≤ i ∧ i + 1 < data.length
        ∧ data[i - 1]! < data[i]! ∧ data[i + 1]! < data[i]!
        ∧ height ≤ data[i]!
        ∧ (∃ j, i - 50 ≤ j ∧ j < i ∧ prominence ≤ data[i]! - data[j]!)
        ∧ (∃ j, i + 1 ≤ j ∧ j < min data.length (i + 50)
            ∧ prominence ≤ data[i]! - data[j]!)))
    ∧ (findPeaks data height (some prominence) (some distance)).peaks
        = distanceFilter distance (promCandidates data height prominence) := by
  constructor
  · unfold promCandidates
    rw [List.mem_filter]
    constructor
    · rintro ⟨hr, hk⟩
      rcases List.mem_range'.mp hr with ⟨k, hk2, rfl⟩
      unfold promKeep at hk
      simp only [Bool.and_eq_true, decide_eq_true_eq] at hk
      rcases hk with ⟨⟨⟨h1, h2⟩, h3⟩, h4⟩
      rw [le_min_iff] at h4
      rcases h4 with ⟨h4l, h4r⟩
      unfold minLeftOf at h4l
      unfold minRightOf at h4r
      rw [le_sub_foldl_min] at h4l h4r
      refine ⟨by omega, by omega, h1, h2, h3, ?_, ?_⟩
      · rcases h4l with h | ⟨y, hy, h⟩
        · exact ⟨1 + 1 * k - 1, by omega, by omega, by linarith⟩
        · rcases List.mem_map.mp hy with ⟨j, hj, rfl⟩
          rcases List.mem_range'.mp hj with ⟨j2, hj2, rfl⟩
          exact ⟨_, by omega, by omega, h⟩
      · rcases h4r with h | ⟨y, hy, h⟩
        · exact ⟨1 + 1 * k + 1, by omega, by omega, by linarith⟩
        · rcases List.mem_map.mp hy with ⟨j, hj, rfl⟩
          rcases List.mem_range'.mp hj with ⟨j2, hj2, rfl⟩
          exact ⟨_, by omega, by omega, h⟩
    · rintro ⟨hi1, hi2, h1, h2, h3, ⟨jl, hjl1, hjl2, hjl3⟩, ⟨jr, hjr1, hjr2, hjr3⟩⟩
      refine ⟨List.mem_range'.mpr ⟨i - 1, by omega, by omega⟩, ?_⟩
      unfold promKeep
      simp only [Bool.and_eq_true, decide_eq_true_eq]
      refine ⟨⟨⟨h1, h2⟩, h3⟩, le_min_iff.mpr ⟨?_, ?_⟩⟩
      · unfold minLeftOf
        rw [le_sub_foldl_min]
        right
        exact ⟨data[jl]!, List.mem_map.mpr
          ⟨jl, List.mem_range'.mpr ⟨jl - (i - 50), by omega, by omega⟩, rfl⟩, hjl3⟩
      · unfold minRightOf
        rw [le_sub_foldl_min]
        right
        exact ⟨data[jr]!, List.mem_map.mpr
          ⟨jr, List.mem_range'.mpr ⟨jr - (i + 1), by omega, by omega⟩, rfl⟩, hjr3⟩
  · rfl

/-- The 52-sample signal `[0, 10, 9, 9, …, 9, 0]` (49 nines): its lone
strict local maximum is at index 1, whose only low right-hand sample
sits exactly 50 positions away, just outside the source's right
window. -/
def c6data : List ℚ := 0 :: 10 :: (List.replicate 49 9 ++ [0])

theorem c6_len : c6data.length = 52 := by
  unfold c6data
  simp

theorem c6_get0 : c6data[0]! = 0 := by
  unfold c6data
  simp

theorem c6_get1 : c6data[1]! = 10 := by
  unfold c6data
  simp

theorem c6_get2 : c6data[2]! = 9 := by
  unfold c6data
  have h : (List.replicate 49 (9:ℚ) ++ [0])[0]! = 9 := by
    rw [getElem!_pos (List.replicate 49 (9:ℚ) ++ [0]) 0 (by simp)]
    rw [List.getElem_append_left (by simp)]
    exact List.getElem_replicate _ _
  simp only [List.getElem!_cons_succ, List.getElem!_cons_zero]
  exact h

theorem c6_get51 : c6data[51]! = 0 := by
  unfold c6data
  simp only [List.getElem!_cons_succ]
  rw [getElem!_pos (List.replicate 49 (9:ℚ) ++ [0]) 49 (by simp)]
  rw [List.getElem_append_right (by simp)]
  simp

theorem c6_mid : ∀ j : ℕ, 2 ≤ j → j ≤ 50 → c6data[j]! = 9 := by
  intro j hj1 hj2
  obtain ⟨k, rfl⟩ : ∃ k, j = k + 2 := ⟨j - 2, by omega⟩
  unfold c6data
  simp only [List.getElem!_cons_succ]
  rw [getElem!_pos (List.replicate 49 (9:ℚ) ++ [0]) k (by simp; omega)]
  rw [List.getElem_append_left (by simp; omega)]
  exact List.getElem_replicate _ _

theorem foldl_min_replicate (k : ℕ) (x q : ℚ) (hk : 0 < k) :
    (List.replicate k q).foldl min x = min x q := by
  induction k generalizing x with
  | zero => omega
  | succ k ih =>
    rw [List.replicate_succ, List.foldl_cons]
    rcases Nat.eq_zero_or_pos k with hk0 | hk0
    · subst hk0
      simp
    · rw [ih (min x q) hk0, min_assoc, min_self]

theorem c6_minLeft : minLeftOf c6data 1 = 0 := by
  unfold minLeftOf
  rw [show List.range' (1 - 50) (min 1 50) = [0] from by decide]
  simp only [List.map_cons, List.map_nil, List.foldl_cons, List.foldl_nil]
  rw [c6_get0, c6_get1]
  norm_num

theorem c6_minRight : minRightOf c6data 1 = 9 := by
  unfold minRightOf
  rw [show min c6data.length (1 + 50) - (1 + 1) = 49 from by rw [c6_len]; omega]
  have hmap : (List.range' (1 + 1) 49).map (fun j => c6data[j]!)
      = List.replicate 49 (9:ℚ) := by
    rw [List.eq_replicate_iff]
    constructor
    · simp
    · intro b hb
      rcases List.mem_map.mp hb with ⟨j, hj, rfl⟩
      rcases List.mem_range'.mp hj with ⟨k, hk, rfl⟩
      exact c6_mid _ (by omega) (by omega)
  rw [hmap, c6_get1, foldl_min_replicate 49 10 9 (by norm_num)]
  norm_num

theorem c6_promKeep : promKeep c6data 1 5 1 = false := by
  unfold promKeep
  rw [c6_minLeft, c6_minRight]
  rw [show (1:ℕ) - 1 = 0 from rfl, show (1:ℕ) + 1 = 2 from rfl]
  rw [c6_get0, c6_get1, c6_get2]
  rw [show ((10:ℚ) - 0) = 10 by norm_num, show ((10:ℚ) - 9) = 1 by norm_num]
  rw [min_eq_right (by norm_num : (1:ℚ) ≤ 10)]
  norm_num

/-- Counterexample for C6 as stated: in `c6data` with height 1 and
prominence threshold 5, index 1 is a strict local maximum that the
claim's formula (windows of up to 50 samples on *both* sides, right
window `data[i+1 .. min(n, i+51) - 1]`) keeps — the sample 50 positions
to the right is 0, giving claimed prominence `min(10, 10) = 10 ≥ 5` —
yet the source's prominence stage drops it, because its right window
stops one sample short (49 nines give prominence `min(10, 1) = 1 < 5`). -/
theorem claimC6_counterexample :
    (1 ≤ 1 ∧ 1 + 1 < c6data.length
      ∧ c6data[1 - 1]! < c6data[1]! ∧ c6data[1 + 1]! < c6data[1]!
      ∧ (1:ℚ) ≤ c6data[1]!
      ∧ (∃ j, 1 - 50 ≤ j ∧ j < 1 ∧ (5:ℚ) ≤ c6data[1]! - c6data[j]!)
      ∧ (∃ j, 1 + 1 ≤ j ∧ j < min c6data.length (1 + 51)
          ∧ (5:ℚ) ≤ c6data[1]! - c6data[j]!))
    ∧ 1 ∉ promCandidates c6data 1 5 := by
  constructor
  · refine ⟨le_refl 1, by rw [c6_len]; omega, ?_, ?_, ?_, ?_, ?_⟩
    · rw [show (1:ℕ) - 1 = 0 from rfl, c6_get0, c6_get1]
      norm_num
    · rw [show (1:ℕ) + 1 = 2 from rfl, c6_get2, c6_get1]
      norm_num
    · rw [c6_get1]
      norm_num
    · refine ⟨0, by omega, by omega, ?_⟩
      rw [c6_get0, c6_get1]
      norm_num
    · refine ⟨51, by omega, by rw [c6_len]; omega, ?_⟩
      rw [c6_get51, c6_get1]
      norm_num
  · intro hmem
    unfold promCandidates at hmem
    have h := (List.mem_filter.mp hmem).2
    rw [c6_promKeep] at h
    cases h

/-! ## Claim C2 -/

theorem length_transmittanceToAbsorbance (log10Q : ℚ → ℚ) (tm : List ℚ) :
    (transmittanceToAbsorbance log10Q tm).length = tm.length := by
  unfold transmittanceToAbsorbance
  rw [List.length_map]

theorem length_savitzkyGolayFilter (expQ : ℚ → ℚ) (data : List ℚ) (w p : ℕ) :
    (savitzkyGolayFilter expQ data w p).length = data.length := by
  unfold savitzkyGolayFilter
  dsimp only
  split
  · rfl
  · rw [List.length_map, List.length_range]

theorem length_removeLinearBaseline (data : List ℚ) :
    (removeLinearBaseline data).length = data.length := by
  unfold removeLinearBaseline
  dsimp only
  split
  · rfl
  · rw [List.length_map, List.length_range]

theorem length_detectAbsorbance (log10Q expQ : ℚ → ℚ) (wavenumber transmittance : List ℚ)
    (opts : DetectOptions) (hlen : transmittance.length = wavenumber.length) :
    (detectAbsorbance log10Q expQ wavenumber transmittance opts).length
      = wavenumber.length := by
  unfold detectAbsorbance
  dsimp only
  have htm : (if detectRev wavenumber then transmittance.reverse else transmittance).length
      = wavenumber.length := by
    by_cases hr : detectRev wavenumber = true
    · rw [if_pos hr, List.length_reverse, hlen]
    · rw [if_neg hr]
      exact hlen
  by_cases hb : opts.baselineMethod = "linear"
  · rw [if_pos hb, length_removeLinearBaseline, length_savitzkyGolayFilter,
      length_transmittanceToAbsorbance, htm]
  · rw [if_neg hb, length_savitzkyGolayFilter, length_transmittanceToAbsorbance, htm]

theorem length_detectAxis (wavenumber : List ℚ) :
    (detectAxis wavenumber).length = wavenumber.length := by
  unfold detectAxis
  split
  · rw [List.length_reverse]
  · rfl

theorem mem_detectAxis {wavenumber : List ℚ} {w : ℚ} (h : w ∈ detectAxis wavenumber) :
    w ∈ wavenumber := by
  unfold detectAxis at h
  split at h
  · exact List.mem_reverse.mp h
  · exact h

/-- `(findPeaks …).peaks` is exactly the distance-filtered prominence
stage. -/
theorem findPeaks_peaks (data : List ℚ) (height prominence : ℚ) (distance : ℕ) :
    (findPeaks data height (some prominence) (some distance)).peaks
      = distanceFilter distance (promCandidates data height prominence) := rfl

theorem mem_promCandidates_bound {data : List ℚ} {height prominence : ℚ} {i : ℕ}
    (h : i ∈ promCandidates data height prominence) : i + 1 < data.length := by
  unfold promCandidates at h
  have h2 := (List.mem_filter.mp h).1
  rcases List.mem_range'.mp h2 with ⟨k, hk, rfl⟩
  omega

theorem detectResult_peaks_bound {log10Q expQ : ℚ → ℚ}
    {wavenumber transmittance : List ℚ} {opts : DetectOptions} {i : ℕ}
    (h : i ∈ (detectResult log10Q expQ wavenumber transmittance opts).peaks) :
    i + 1 < (detectAbsorbance log10Q expQ wavenumber transmittance opts).length := by
  unfold detectResult at h
  rw [findPeaks_peaks] at h
  exact mem_promCandidates_bound (distanceFilter_sub _ _ _ h)

theorem pairwise_position_mergeSort (l : List Peak) :
    (l.mergeSort (fun a b => decide (b.position ≤ a.position))).Pairwise
      (fun a b => b.position ≤ a.position) := by
  have hs := @List.sorted_mergeSort Peak
    (fun a b : Peak => decide (b.position ≤ a.position))
    (by
      intro a b c hab hbc
      rw [decide_eq_true_eq] at hab hbc ⊢
      exact le_trans hbc hab)
    (by
      intro a b
      rcases le_total b.position a.position with h | h
      · simp [h]
      · simp [h])
    l
  apply List.Pairwise.imp _ hs
  intro a b hab
  rwa [decide_eq_true_eq] at hab

/-- Claim C2 (amended): for every pair of equal-length axis and
transmittance lists and every options record (and every choice of the
transcendental primitives), the peak list returned by `detectPeaks` is
sorted by non-increasing position, and every returned position is the
2-decimal rounding of a value of the input wavenumber axis (the source
stores `parseFloat(wn[peakIdx].toFixed(2))`, not the raw axis value).
An empty peak list is a possible result of the same total function, not
an error. -/
theorem claimC2 (log10Q expQ sqrtQ : ℚ → ℚ) (wavenumber transmittance : List ℚ)
    (opts : DetectOptions) (hlen : transmittance.length = wavenumber.length) :
    (detectPeaks log10Q expQ sqrtQ wavenumber transmittance opts).Pairwise
      (fun a b => b.position ≤ a.position)
    ∧ ∀ pk ∈ detectPeaks log10Q expQ sqrtQ wavenumber transmittance opts,
        ∃ w ∈ wavenumber, pk.position = round2 w := by
  constructor
  · exact pairwise_position_mergeSort _
  · intro pk hpk
    unfold detectPeaks at hpk
    have hpk2 := List.mem_mergeSort.mp hpk
    unfold detectPeakList at hpk2
    rcases List.mem_map.mp hpk2 with ⟨i, hi, rfl⟩
    rw [List.mem_range] at hi
    have hmem : (detectResult log10Q expQ wavenumber transmittance opts).peaks[i]!
        ∈ (detectResult log10Q expQ wavenumber transmittance opts).peaks := by
      rw [getElem!_pos (detectResult log10Q expQ wavenumber transmittance opts).peaks i hi]
      exact List.getElem_mem hi
    have hbound := detectResult_peaks_bound hmem
    have hlt : (detectResult log10Q expQ wavenumber transmittance opts).peaks[i]!
        < (detectAxis wavenumber).length := by
      rw [length_detectAxis]
      rw [length_detectAbsorbance log10Q expQ wavenumber transmittance opts hlen] at hbound
      omega
    refine ⟨(detectAxis wavenumber)[(detectResult log10Q expQ wavenumber
        transmittance opts).peaks[i]!]!, ?_, rfl⟩
    apply mem_detectAxis
    rw [getElem!_pos (detectAxis wavenumber) _ hlt]
    exact List.getElem_mem hlt

/-- A concrete stand-in for `Math.log10` that agrees with the real
logarithm at every point the pipeline below evaluates it (1, 10 and
100). -/
def c2log10 (q : ℚ) : ℚ := if q = 1 then 0 else if q = 10 then 1 else if q = 100 then 2 else 0

/-- Stand-in for `Math.exp`; never reached below because the 10-sample
signal is shorter than the smoothing window. -/
def c2exp (_ : ℚ) : ℚ := 1

/-- Stand-in for `Math.sqrt`; only applied to 0 below, where the real
square root is also 0. -/
def c2sqrt (_ : ℚ) : ℚ := 0

/-- A valid 10-point ascending axis one of whose values, 400.004, has
more than 2 decimal places. -/
def c2wn : List ℚ := [100, 200, 300, 400.004, 500, 600, 700, 800, 900, 1000]

/-- Transmittance with a single full-absorption point at the 400.004
position. -/
def c2tm : List ℚ := [100, 100, 100, 1, 100, 100, 100, 100, 100, 100]

/-- The absorbance signal the pipeline derives from `c2tm`. -/
def c2abs : List ℚ := [0, 0, 0, 2, 0, 0, 0, 0, 0, 0]

theorem c2_rev : detectRev c2wn = false := by decide

theorem c2_axis : detectAxis c2wn = c2wn := by
  unfold detectAxis
  rw [c2_rev]
  simp

theorem c2_absorb0 : transmittanceToAbsorbance c2log10 c2tm = c2abs := by
  unfold transmittanceToAbsorbance c2tm c2abs c2log10
  simp only [List.map_cons, List.map_nil]
  norm_num [min_def, max_def]

theorem c2_sg : savitzkyGolayFilter c2exp c2abs 11 3 = c2abs := by
  unfold savitzkyGolayFilter
  dsimp only
  rw [show sgWindowLength 11 3 = 11 from by decide]
  rw [if_pos (by decide : c2abs.length < 11)]

theorem c2_baseline : removeLinearBaseline c2abs = c2abs := by
  unfold removeLinearBaseline
  dsimp only
  rw [if_neg (by decide : ¬ c2abs.length < 2)]
  rw [show List.range c2abs.length = [0,1,2,3,4,5,6,7,8,9] from by decide]
  simp only [List.map_cons, List.map_nil]
  norm_num [c2abs, List.getElem!_cons_succ, List.getElem!_cons_zero]

theorem c2_absorbance :
    detectAbsorbance c2log10 c2exp c2wn c2tm defaultDetectOptions = c2abs := by
  unfold detectAbsorbance
  dsimp only
  rw [c2_rev]
  simp only [Bool.false_eq_true, if_false]
  rw [show defaultDetectOptions.smoothWindowLength = 11 from rfl,
    show defaultDetectOptions.smoothPolyorder = 3 from rfl,
    show defaultDetectOptions.baselineMethod = "linear" from rfl]
  rw [c2_absorb0, c2_sg, if_pos rfl, c2_baseline]

theorem c2_maxAbs : maxQ c2abs = 2 := by
  unfold maxQ c2abs
  norm_num [List.foldl_cons, List.foldl_nil, max_def]

theorem c2_keep3 : promKeep c2abs (1/50) (1/10) 3 = true := by
  unfold promKeep minLeftOf minRightOf
  rw [show List.range' (3 - 50) (min 3 50) = [0, 1, 2] from by decide]
  rw [show List.range' (3 + 1) (min c2abs.length (3 + 50) - (3 + 1)) = [4,5,6,7,8,9]
    from by decide]
  simp only [List.map_cons, List.map_nil, List.foldl_cons, List.foldl_nil]
  norm_num [c2abs, List.getElem!_cons_succ, List.getElem!_cons_zero, min_def]

theorem c2_keepOther : ∀ k, k ∈ ([1, 2, 4, 5, 6, 7, 8] : List ℕ) →
    promKeep c2abs (1/50) (1/10) k = false := by
  intro k hk
  fin_cases hk <;>
    (unfold promKeep
     norm_num [c2abs, List.getElem!_cons_succ, List.getElem!_cons_zero])

theorem c2_promCands : promCandidates c2abs (1/50) (1/10) = [3] := by
  unfold promCandidates
  rw [show List.range' 1 (c2abs.length - 2) = [1,2,3,4,5,6,7,8] from by decide]
  simp only [List.filter_cons, List.filter_nil]
  rw [c2_keep3]
  rw [c2_keepOther 1 (by decide), c2_keepOther 2 (by decide), c2_keepOther 4 (by decide),
    c2_keepOther 5 (by decide), c2_keepOther 6 (by decide), c2_keepOther 7 (by decide),
    c2_keepOther 8 (by decide)]
  simp

theorem c2_result_peaks :
    (detectResult c2log10 c2exp c2wn c2tm defaultDetectOptions).peaks = [3] := by
  unfold detectResult
  dsimp only
  rw [c2_absorbance, c2_maxAbs]
  rw [show max defaultDetectOptions.minHeight ((2:ℚ) * (1/100)) = 1/50 from by
    norm_num [defaultDetectOptions, max_def]]
  rw [show (2:ℚ) * (defaultDetectOptions.prominencePercent / 100) = 1/10 from by
    norm_num [defaultDetectOptions]]
  rw [show max 1 (⌊((detectAxis c2wn).length : ℚ)
      * (defaultDetectOptions.distancePercent / 100)⌋.toNat) = 1 from by
    rw [length_detectAxis]
    norm_num [defaultDetectOptions, c2wn]]
  rw [findPeaks_peaks, c2_promCands]
  simp [distanceFilter]

theorem c2_detect_positions :
    (detectPeaks c2log10 c2exp c2sqrt c2wn c2tm defaultDetectOptions).map Peak.position
      = [400] := by
  unfold detectPeaks detectPeakList
  dsimp only
  rw [c2_result_peaks]
  rw [show List.range ([3] : List ℕ).length = [0] from by decide]
  simp only [List.map_cons, List.map_nil, List.mergeSort_singleton,
    List.getElem!_cons_zero]
  rw [c2_axis]
  rw [show c2wn[(3:ℕ)]! = (400.004 : ℚ) from by
    norm_num [c2wn, List.getElem!_cons_succ, List.getElem!_cons_zero]]
  unfold round2
  rw [show (100 : ℚ) * (400.004 : ℚ) = 200002/5 from by norm_num]
  rw [round_eq]
  norm_num

/-- Counterexample for C2 as stated: on the valid 10-point spectrum
`(c2wn, c2tm)` (the primitives `c2log10`/`c2exp`/`c2sqrt` agree with the
real `Math.log10`/`Math.exp`/`Math.sqrt` at every point the pipeline
evaluates them), `detectPeaks` returns exactly one peak, whose position
400 is *not* a value of the input wavenumber axis — the detected axis
value is 400.004, stored as `parseFloat((400.004).toFixed(2)) = 400`. -/
theorem claimC2_counterexample :
    (detectPeaks c2log10 c2exp c2sqrt c2wn c2tm defaultDetectOptions).map Peak.position
      = [400]
    ∧ (400 : ℚ) ∉ c2wn :=
  ⟨c2_detect_positions, by norm_num [c2wn]⟩

/-- Witness for C2 (amended) at the concrete spectrum `(c2wn, c2tm)`:
the hypotheses hold and the sortedness / rounded-membership conclusions
follow. -/
theorem claimC2_witness :
    c2tm.length = c2wn.length
    ∧ ((detectPeaks c2log10 c2exp c2sqrt c2wn c2tm defaultDetectOptions).Pairwise
        (fun a b => b.position ≤ a.position)
      ∧ ∀ pk ∈ detectPeaks c2log10 c2exp c2sqrt c2wn c2tm defaultDetectOptions,
          ∃ w ∈ c2wn, pk.position = round2 w) :=
  ⟨by decide, claimC2 c2log10 c2exp c2sqrt c2wn c2tm defaultDetectOptions (by decide)⟩

end FtirSpec
